import Mathlib

/-!
# Pod mutation pipeline of the Dynatrace operator webhook

A shallow embedding of `pkg/webhook/mutation/pod` (`handle.go`), of
`pkg/webhook/mutation/pod/oneagent` (`mutator.go`, `containers.go`, `init.go`)
and of `pkg/webhook/mutation/pod/metadata` (`mutator.go`).

Go pointers are replaced by explicit state passing: a function that mutates the
pod or the install container through a pointer returns the new value.  Logging
and event recording have no influence on the pod or on the returned error and
are left out.
-/

set_option autoImplicit false

/-! ## Go maps of strings -/

/-- A non-nil Go `map[string]string`, kept as an association list. -/
abbrev StrMap := List (String × String)

namespace maputils

/-- Go `v, ok := m[key]` on a possibly nil map: a nil map reads as empty. -/
def lookup (m : Option StrMap) (key : String) : Option String :=
  match m with
  | none => none
  | some l => (l.find? (fun kv => kv.1 == key)).map (fun kv => kv.2)

/-- Go `m[key] = value` after the `if m == nil { m = make(...) }` guard. -/
def insert (m : Option StrMap) (key value : String) : Option StrMap :=
  some ((key, value) :: (m.getD []).filter (fun kv => !(kv.1 == key)))

/-- Go `delete(m, key)`; deleting from a nil map is a no-op. -/
def delete (m : Option StrMap) (key : String) : Option StrMap :=
  m.map (fun l => l.filter (fun kv => !(kv.1 == key)))

/-- Modelled from the spec: `maputils.GetField` (package `pkg/util/map`, not under
`src/`).  §4.1 and §6: an explicit per-pod override wins, else the default.  An
override is explicit when the key carries a non-empty value. -/
def GetField (values : Option StrMap) (key defaultValue : String) : String :=
  match lookup values key with
  | some v => if v = "" then defaultValue else v
  | none => defaultValue

/-- Go `strconv.ParseBool`. -/
def parseBool (s : String) : Option Bool :=
  if s = "1" ∨ s = "t" ∨ s = "T" ∨ s = "TRUE" ∨ s = "true" ∨ s = "True" then some true
  else if s = "0" ∨ s = "f" ∨ s = "F" ∨ s = "FALSE" ∨ s = "false" ∨ s = "False" then some false
  else none

/-- Modelled from the spec: `maputils.GetFieldBool` (package `pkg/util/map`, not
under `src/`).  §4.1: "an explicit or default-derived per-pod opt-in flag": the
annotation read as a boolean, the default when it is unset or unreadable. -/
def GetFieldBool (values : Option StrMap) (key : String) (defaultValue : Bool) : Bool :=
  let raw := GetField values key ""
  if raw = "" then defaultValue
  else match parseBool raw with
    | some b => b
    | none => defaultValue

end maputils

/-! ## Errors -/

/-- Errors seen by the pipeline.  `notFound` is the class recognised by
`k8serrors.IsNotFound`; `canceled` is the error of a cancelled context. -/
inductive Err where
  | notFound (what : String)
  | canceled
  | other (msg : String)
  deriving DecidableEq, Repr

namespace k8serrors

/-- Go `k8serrors.IsNotFound(err)`; false on the nil error. -/
def IsNotFound (err : Option Err) : Bool :=
  match err with
  | some (Err.notFound _) => true
  | _ => false

end k8serrors

/-! ## Kubernetes objects (the fields the pipeline reads or writes) -/

namespace corev1

structure EnvVar where
  name : String
  value : String
  valueFrom : Option String := none
  deriving DecidableEq, Repr

structure VolumeMount where
  name : String
  mountPath : String
  subPath : String := ""
  readOnly : Bool := false
  deriving DecidableEq, Repr

structure Volume where
  name : String
  source : String
  deriving DecidableEq, Repr

structure Container where
  name : String
  image : String
  command : List String := []
  args : List String := []
  env : List EnvVar := []
  volumeMounts : List VolumeMount := []
  deriving DecidableEq, Repr

structure Pod where
  name : String
  podNamespace : String := ""
  annotations : Option StrMap := none
  containers : List Container := []
  initContainers : List Container := []
  volumes : List Volume := []
  deriving DecidableEq, Repr

structure Namespace where
  name : String
  labels : Option StrMap := none
  deriving DecidableEq, Repr

end corev1

open corev1

/-! ## Label selectors (`metav1.LabelSelector`, `k8s.io/apimachinery/pkg/labels`) -/

namespace metav1

structure LabelSelectorRequirement where
  key : String
  operator : String
  values : List String
  deriving DecidableEq, Repr

structure LabelSelector where
  matchLabels : StrMap := []
  matchExpressions : List LabelSelectorRequirement := []
  deriving DecidableEq, Repr

/-- The generated `Size()` of a possibly nil selector is positive exactly when the
selector carries at least one entry; the model counts the entries. -/
def LabelSelector.Size (ps : Option LabelSelector) : Nat :=
  match ps with
  | none => 0
  | some s => s.matchLabels.length + s.matchExpressions.length

end metav1

/-! ## Label syntax (`k8s.io/apimachinery/pkg/util/validation`)

The checks run by `labels.NewRequirement`.  Go measures lengths in bytes; a string
that passes one of the regular expressions below is ASCII, so the number of
characters is the number of bytes wherever the length decides. -/

namespace validation

/-- The character class `[A-Za-z0-9]`. -/
def isQnameChar (c : Char) : Bool :=
  c.isAlphanum

/-- The character class `[-A-Za-z0-9_.]`. -/
def isQnameExtChar (c : Char) : Bool :=
  c.isAlphanum || c == '-' || c == '_' || c == '.'

/-- The regular expression `^([A-Za-z0-9][-A-Za-z0-9_.]*)?[A-Za-z0-9]$`
(`qualifiedNameFmt`). -/
def matchesQualifiedName (cs : List Char) : Bool :=
  match cs.head?, cs.getLast? with
  | some first, some last => isQnameChar first && isQnameChar last && cs.all isQnameExtChar
  | _, _ => false

/-- The character class `[a-z0-9]`. -/
def isDNSChar (c : Char) : Bool :=
  c.isLower || c.isDigit

/-- The regular expression `^[a-z0-9]([-a-z0-9]*[a-z0-9])?$` (`dns1123LabelFmt`). -/
def matchesDNS1123Label (cs : List Char) : Bool :=
  match cs.head?, cs.getLast? with
  | some first, some last =>
    isDNSChar first && isDNSChar last && cs.all (fun c => isDNSChar c || c == '-')
  | _, _ => false

/-- Go `strings.Split` on a one-character separator. -/
def splitOn (sep : Char) : List Char → List (List Char)
  | [] => [[]]
  | c :: cs =>
    if c = sep then [] :: splitOn sep cs
    else
      match splitOn sep cs with
      | [] => [[c]]
      | part :: parts => (c :: part) :: parts

/-- Go `validation.IsDNS1123Subdomain` (no error): at most 253 bytes, DNS labels
separated by dots. -/
def IsDNS1123Subdomain (value : List Char) : Bool :=
  decide (value.length ≤ 253) && (splitOn '.' value).all matchesDNS1123Label

/-- The name part of a qualified name: not empty, at most 63 bytes, matching
`qualifiedNameFmt`. -/
def isQualifiedNamePart (name : List Char) : Bool :=
  !name.isEmpty && decide (name.length ≤ 63) && matchesQualifiedName name

/-- Go `validation.IsQualifiedName` (no error): a name, or a DNS subdomain, a slash
and a name. -/
def IsQualifiedName (value : String) : Bool :=
  match splitOn '/' value.toList with
  | [name] => isQualifiedNamePart name
  | [domain, name] => !domain.isEmpty && IsDNS1123Subdomain domain && isQualifiedNamePart name
  | _ => false

/-- Go `validation.IsValidLabelValue` (no error): at most 63 bytes, empty or matching
`qualifiedNameFmt`. -/
def IsValidLabelValue (value : String) : Bool :=
  decide (value.length ≤ 63) && (value.isEmpty || matchesQualifiedName value.toList)

end validation

namespace selection

/-- The operators of `selection.Operator` that `metav1.LabelSelectorAsSelector`
passes to `labels.NewRequirement`. -/
inductive Operator where
  | Equals
  | In
  | NotIn
  | Exists
  | DoesNotExist
  deriving DecidableEq, Repr

end selection

namespace labels

/-- One requirement of a selector (`labels.Requirement`). -/
structure Requirement where
  key : String
  operator : selection.Operator
  strValues : List String
  deriving DecidableEq, Repr

/-- Go `labels.NewRequirement`; `none` stands for the returned error: the key is a
qualified name, the number of values fits the operator, and every value is a
valid label value. -/
def NewRequirement (key : String) (op : selection.Operator) (vals : List String) :
    Option Requirement :=
  let keyValid := validation.IsQualifiedName key
  let countValid :=
    match op with
    | selection.Operator.In => !vals.isEmpty
    | selection.Operator.NotIn => !vals.isEmpty
    | selection.Operator.Equals => vals.length == 1
    | selection.Operator.Exists => vals.isEmpty
    | selection.Operator.DoesNotExist => vals.isEmpty
  let valuesValid := vals.all validation.IsValidLabelValue
  if keyValid && countValid && valuesValid then some { key := key, operator := op, strValues := vals }
  else none

/-- Go `Requirement.Matches` over a label set. -/
def Requirement.Matches (r : Requirement) (ls : Option StrMap) : Bool :=
  match r.operator with
  | selection.Operator.In | selection.Operator.Equals =>
    match maputils.lookup ls r.key with
    | none => false
    | some v => r.strValues.contains v
  | selection.Operator.NotIn =>
    match maputils.lookup ls r.key with
    | none => true
    | some v => !(r.strValues.contains v)
  | selection.Operator.Exists => (maputils.lookup ls r.key).isSome
  | selection.Operator.DoesNotExist => (maputils.lookup ls r.key).isNone

/-- Go `Selector.Matches`: every requirement matches. -/
def Matches (selector : List Requirement) (ls : Option StrMap) : Bool :=
  selector.all (fun r => r.Matches ls)

end labels

namespace metav1

/-- The conversion of one match expression in `LabelSelectorAsSelector`: the
operator is translated, an unknown operator is an error, and the requirement is
built by `labels.NewRequirement`. -/
def convertExpression (expr : LabelSelectorRequirement) : Option labels.Requirement :=
  if expr.operator = "In" then
    labels.NewRequirement expr.key selection.Operator.In expr.values
  else if expr.operator = "NotIn" then
    labels.NewRequirement expr.key selection.Operator.NotIn expr.values
  else if expr.operator = "Exists" then
    labels.NewRequirement expr.key selection.Operator.Exists expr.values
  else if expr.operator = "DoesNotExist" then
    labels.NewRequirement expr.key selection.Operator.DoesNotExist expr.values
  else none

/-- The loop `for ... { r, err := ...; if err != nil { return nil, err }; append }`:
the converted entries, `none` as soon as one conversion fails. -/
def convertAll {α β : Type} (f : α → Option β) : List α → Option (List β)
  | [] => some []
  | a :: rest =>
    match f a, convertAll f rest with
    | some b, some bs => some (b :: bs)
    | _, _ => none

/-- Go `metav1.LabelSelectorAsSelector` on a non-nil selector; `none` stands for
the `(nil, err)` result.  Every match label becomes an `Equals` requirement and
every match expression a requirement of its operator. -/
def LabelSelectorAsSelector (ps : LabelSelector) : Option (List labels.Requirement) :=
  match convertAll (fun kv => labels.NewRequirement kv.1 selection.Operator.Equals [kv.2])
      ps.matchLabels,
    convertAll convertExpression ps.matchExpressions with
  | some fromLabels, some fromExpressions => some (fromLabels ++ fromExpressions)
  | _, _ => none

end metav1

/-! ## The DynaKube configuration object

The type lives in `pkg/api/latest/dynakube`, outside `src/`.  The record holds
what the accessors used by the pipeline return. -/

namespace dynakube

structure DynaKube where
  /-- Go `dk.Name` -/
  name : String := ""
  /-- Go `dk.FF().IsNodeImagePull()` -/
  ffNodeImagePull : Bool := false
  /-- Go `dk.FF().IsAutomaticInjection()` -/
  ffAutomaticInjection : Bool := true
  /-- Go `dk.FF().IsLabelVersionDetection()` -/
  ffLabelVersionDetection : Bool := false
  /-- Go `dk.FF().GetNodeImagePullTechnology()` -/
  ffNodeImagePullTechnology : String := ""
  /-- Go `dk.FF().GetCSIMaxRetryTimeout().String()` -/
  ffCSIMaxRetryTimeout : String := ""
  /-- Go `dk.OneAgent().IsCSIAvailable()` -/
  csiAvailable : Bool := false
  /-- Go `dk.OneAgent().GetNamespaceSelector()`, nil when OneAgent is not configured -/
  namespaceSelector : Option metav1.LabelSelector := none
  /-- Go `dk.OneAgent().IsCloudNativeFullstackMode()` -/
  cloudNativeFullstack : Bool := false
  /-- Go `dk.OneAgent().GetCodeModulesVersion()` -/
  codeModulesVersion : String := ""
  /-- Go `dk.OneAgent().GetCustomCodeModulesImage()` -/
  codeModulesImage : String := ""
  /-- the tenant identifier of the status, empty when it is not known -/
  statusTenantUUID : String := ""
  /-- Go `dk.IsAGCertificateNeeded()` -/
  agCertificateNeeded : Bool := false
  /-- Go `dk.Spec.TrustedCAs` -/
  trustedCAs : String := ""
  /-- Go `dk.Spec.NetworkZone` -/
  networkZone : String := ""
  deriving DecidableEq, Repr

/-- Modelled from the spec: `dk.TenantUUID()` (not under `src/`).  §4.5 and §8
scenario D: the lookup fails when no tenant identifier is resolvable. -/
def DynaKube.TenantUUID (dk : DynaKube) : Except Err String :=
  if dk.statusTenantUUID = "" then Except.error (Err.other "tenant UUID not available")
  else Except.ok dk.statusTenantUUID

end dynakube

open dynakube

/-! ## Requests (`pkg/webhook/mutation/pod/common`) -/

namespace dtwebhook

/-- The execution context of a request. -/
structure Context where
  cancelled : Bool := false
  deriving DecidableEq, Repr

structure BaseRequest where
  pod : Pod
  dynaKube : DynaKube
  nspace : Namespace
  deriving DecidableEq, Repr

/-- A mutation request.  `installContainer` is the target of the Go pointer
`InstallContainer`; `handle` assigns it before any stage reads it. -/
structure MutationRequest where
  base : BaseRequest
  context : Context := {}
  installContainer : Container
  deriving DecidableEq, Repr

structure ReinvocationRequest where
  base : BaseRequest
  deriving DecidableEq, Repr

/-- Modelled from the spec: the constants of package `common` are declared
outside `src/`; §6 lists them as distinct annotation keys and a reserved name. -/
def AnnotationDynatraceInjected : String := "dynakube.dynatrace.com/injected"

/-- Modelled from the spec: see `AnnotationDynatraceInjected`. -/
def AnnotationDynatraceReason : String := "dynakube.dynatrace.com/reason"

/-- Modelled from the spec: the reserved name of the install init container (§6). -/
def InstallContainerName : String := "dynatrace-operator"

end dtwebhook

open dtwebhook

/-! ## Code outside `src/` whose results enter the pipeline as data -/

/-- The attribute set of `podattr.Attributes` that `metadata.Mutate` fills in. -/
structure Attributes where
  workloadKind : String := ""
  workloadName : String := ""
  userDefined : Option StrMap := none
  deriving DecidableEq, Repr

/-- The owning workload found by `RetrieveWorkload`. -/
structure WorkloadInfo where
  kind : String
  name : String
  deriving DecidableEq, Repr

/-- Helpers of this repository and of libraries whose source is not under `src/`.
Each field is the data such a helper contributes; the definitions that use a
field say how, following the spec. -/
structure Deps where
  /-- Go `url.QueryEscape` -/
  queryEscape : String → String
  /-- the image, resources and security settings chosen by `createInitContainerBase` -/
  initContainerBase : Pod → DynaKube → Bool → Container
  /-- the serialized container attributes, or the error of their serialization -/
  containerAttributes : MutationRequest → Except Err (List String)
  /-- the serialized pod attributes, or the error of their serialization -/
  podAttributes : MutationRequest → Except Err (List String)
  /-- the CSI volume for a DynaKube name and a retry timeout -/
  csiBinVolume : String → String → Volume
  /-- the empty-directory volume -/
  emptyDirBinVolume : Volume
  /-- the mounts of the install container -/
  initVolumeMounts : List VolumeMount
  /-- the agent library mounts of a user container for an install path -/
  agentVolumeMounts : String → List VolumeMount
  /-- the deployment-metadata variables -/
  deploymentMetadataEnv : DynaKube → List EnvVar
  /-- the preload-path variables for an install path -/
  preloadEnv : String → List EnvVar
  /-- the network-zone variables for a network zone -/
  networkZoneEnv : String → List EnvVar
  /-- the version-detection variables -/
  versionDetectionEnvs : Namespace → List EnvVar
  /-- the annotations copied from the namespace, nil when there are none -/
  copyMetadataFromNamespace : Pod → Namespace → DynaKube → Option StrMap
  /-- Go `podattr.ToArgs` -/
  attributesToArgs : Attributes → Except Err (List String)

/-- The receiver `wh *webhook` of `handle.go`: the platform flag and the answers
of the clients it holds (`apiReader`, `kubeClient`, `metaClient`). -/
structure webhook where
  isOpenShift : Bool := false
  /-- Go `wh.apiReader.Get(ctx, ObjectKey{Name, Namespace}, &secret)` -/
  apiReaderGet : Context → String → String → Option Err
  /-- Go `bootstrapperconfig.Replicate(ctx, dk, query, source, target, namespace)` -/
  replicate : Context → DynaKube → String → String → String → Option Err
  /-- Go `RetrieveWorkload(wh.metaClient, request)` -/
  retrieveWorkload : MutationRequest → Except Err WorkloadInfo

/-! ## Small helpers outside `src/` -/

namespace env

/-- Modelled from the spec: `env.IsIn` (package `pkg/util/kubeobjects/env`, not
under `src/`).  §6: the marker variable is "checked for presence". -/
def IsIn (envs : List EnvVar) (name : String) : Bool :=
  envs.any (fun e => e.name == name)

end env

namespace container

/-- Modelled from the spec: `container.FindInitContainerInPodSpec` (not under
`src/`).  §4.4: "locate the existing install container by reserved name". -/
def FindInitContainerInPodSpec (pod : Pod) (name : String) : Option Container :=
  pod.initContainers.find? (fun c => c.name == name)

/-- The write through the pointer returned by `FindInitContainerInPodSpec`: the
first init container of that name is replaced. -/
def storeInitContainer (name : String) (c : Container) : List Container → List Container
  | [] => []
  | x :: xs => if x.name == name then c :: xs else x :: storeInitContainer name c xs

end container

namespace arg

structure Arg where
  name : String
  value : String := ""
  deriving DecidableEq, Repr

/-- Modelled from the spec: `Arg.String` (package `common/arg`, not under `src/`):
one command-line string per argument. -/
def Arg.String (a : Arg) : String :=
  if a.value = "" then "--" ++ a.name else "--" ++ a.name ++ "=" ++ a.value

/-- Modelled from the spec: `arg.ConvertArgsToStrings` (not under `src/`). -/
def ConvertArgsToStrings (args : List Arg) : List String :=
  args.map Arg.String

end arg

/-! ## Package `oneagent` (`mutator.go`, `containers.go`, `init.go`) -/

namespace oneagent

def CSIVolumeType : String := "csi"

def EphemeralVolumeType : String := "ephemeral"

def isInjectedEnv : String := "DT_CM_INJECTED"

/-- Modelled from the spec: the annotation keys of package `oneagent` are declared
outside `src/`; §6 lists them as distinct keys. -/
def AnnotationInject : String := "oneagent.dynatrace.com/inject"

/-- Modelled from the spec: see `AnnotationInject`. -/
def AnnotationInjected : String := "oneagent.dynatrace.com/injected"

/-- Modelled from the spec: see `AnnotationInject`. -/
def AnnotationReason : String := "oneagent.dynatrace.com/reason"

/-- Modelled from the spec: see `AnnotationInject`. -/
def AnnotationVolumeType : String := "oneagent.dynatrace.com/volume-type"

/-- Modelled from the spec: see `AnnotationInject`. -/
def AnnotationInstallPath : String := "oneagent.dynatrace.com/install-path"

/-- Modelled from the spec: see `AnnotationInject`. -/
def AnnotationTechnologies : String := "oneagent.dynatrace.com/technologies"

/-- Modelled from the spec: see `AnnotationInject`. -/
def AnnotationFlavor : String := "oneagent.dynatrace.com/flavor"

/-- Modelled from the spec: the configuration default of the install path (§6). -/
def DefaultInstallPath : String := "/opt/dynatrace/oneagent-paas"

/-- Modelled from the spec: `consts.AgentCodeModuleSource`, declared outside `src/`. -/
def AgentCodeModuleSource : String := "/opt/dynatrace/oneagent"

/-- Modelled from the spec: `binInitMountPath`, declared outside `src/`. -/
def binInitMountPath : String := "/mnt/bin"

/-- Modelled from the spec: the flag names of the bootstrapper (`cmd`, `configure`,
`move`, `bootstrapper`), declared outside `src/`; §4.5 names the arguments. -/
def SourceFolderFlag : String := "source"

/-- Modelled from the spec: see `SourceFolderFlag`. -/
def TargetFolderFlag : String := "target"

/-- Modelled from the spec: see `SourceFolderFlag`. -/
def InstallPathFlag : String := "install-path"

/-- Modelled from the spec: see `SourceFolderFlag`. -/
def IsFullstackFlag : String := "fullstack"

/-- Modelled from the spec: see `SourceFolderFlag`. -/
def TenantFlag : String := "tenant"

/-- Modelled from the spec: see `SourceFolderFlag`. -/
def TechnologyFlag : String := "technology"

/-- Modelled from the spec: see `SourceFolderFlag`. -/
def TargetVersionFlag : String := "version"

/-- Modelled from the spec: see `SourceFolderFlag`. -/
def TechnologiesFlag : String := "technologies"

/-- Modelled from the spec: see `SourceFolderFlag`. -/
def FlavorFlag : String := "flavor"

/-- `IsSelfExtractingImage` (mutator.go 26-30). -/
def IsSelfExtractingImage (mutationRequest : BaseRequest) (isCSI : Bool) : Bool :=
  let ffEnabled := mutationRequest.dynaKube.ffNodeImagePull
  ffEnabled && !isCSI

/-- `IsCSIVolume` (mutator.go 32-39). -/
def IsCSIVolume (mutationRequest : BaseRequest) : Bool :=
  let defaultVolumeType :=
    if mutationRequest.dynaKube.csiAvailable then CSIVolumeType else EphemeralVolumeType
  maputils.GetField mutationRequest.pod.annotations AnnotationVolumeType defaultVolumeType
    == CSIVolumeType

/-- The namespace-selector part of `IsEnabled` (mutator.go 45-51).  The error of
`LabelSelectorAsSelector` is discarded by the code, so a selector that does not
convert leaves a nil `selector` and the call of `Matches` does not return:
`none`. -/
def matchesNamespaceSelector (request : BaseRequest) : Option Bool :=
  if metav1.LabelSelector.Size request.dynaKube.namespaceSelector > 0 then
    match request.dynaKube.namespaceSelector with
    | some ps =>
      (metav1.LabelSelectorAsSelector ps).map
        (fun selector => labels.Matches selector request.nspace.labels)
    | none => some true
  else some true

/-- `IsEnabled` (mutator.go 41-54); `none` when the call does not return. -/
def IsEnabled (request : BaseRequest) : Option Bool :=
  let enabledOnPod := maputils.GetFieldBool request.pod.annotations AnnotationInject
    request.dynaKube.ffAutomaticInjection
  let enabledOnDynakube := request.dynaKube.namespaceSelector.isSome
  (matchesNamespaceSelector request).map
    (fun matchesSelector => matchesSelector && enabledOnPod && enabledOnDynakube)

/-- `IsEnabled` (mutator.go 41-54) with the request it leaves behind: no statement of
the function assigns through `request` (lines 42, 43, 47, 48 and 50 read
annotations, feature flags, the selector and the namespace labels into locals),
so each step hands the request on as it received it. -/
def IsEnabledRun (request : BaseRequest) : Option (Bool × BaseRequest) :=
  let enabledOnPod := maputils.GetFieldBool request.pod.annotations AnnotationInject
    request.dynaKube.ffAutomaticInjection
  let enabledOnDynakube := request.dynaKube.namespaceSelector.isSome
  (matchesNamespaceSelector request).map
    (fun matchesSelector => (matchesSelector && enabledOnPod && enabledOnDynakube, request))

/-- `Mutator.IsEnabled` (mutator.go 56-58). -/
def Mutator.IsEnabled (request : BaseRequest) : Option Bool :=
  oneagent.IsEnabled request

/-- `Mutator.IsInjected` (mutator.go 60-62). -/
def Mutator.IsInjected (request : BaseRequest) : Bool :=
  maputils.GetFieldBool request.pod.annotations AnnotationInjected false

/-- `SetInjectedAnnotation` (mutator.go 64-70). -/
def SetInjectedAnnotation (pod : Pod) : Pod :=
  { pod with annotations := maputils.insert pod.annotations AnnotationInjected "true" }

/-- `SetNotInjectedAnnotations` (mutator.go 72-79). -/
def SetNotInjectedAnnotations (pod : Pod) (reason : String) : Pod :=
  let annotations1 := maputils.insert pod.annotations AnnotationInjected "false"
  { pod with annotations := maputils.insert annotations1 AnnotationReason reason }

/-- `containerIsInjected` (containers.go 34-36). -/
def containerIsInjected (container : Container) : Bool :=
  env.IsIn container.env isInjectedEnv

/-- `setIsInjectedEnv` (containers.go 66-73). -/
def setIsInjectedEnv (container : Container) : Container :=
  { container with env := container.env ++ [{ name := isInjectedEnv, value := "true" }] }

/-- Modelled from the spec: `addVolumeMounts` (not under `src/`).  §4.6: "append
the agent's library mount at the configured install path". -/
def addVolumeMounts (d : Deps) (container : Container) (installPath : String) : Container :=
  { container with volumeMounts := container.volumeMounts ++ d.agentVolumeMounts installPath }

/-- Modelled from the spec: `AddDeploymentMetadataEnv` (not under `src/`).  §4.6:
"append deployment-metadata ... environment variables". -/
def AddDeploymentMetadataEnv (d : Deps) (container : Container) (dk : DynaKube) : Container :=
  { container with env := container.env ++ d.deploymentMetadataEnv dk }

/-- Modelled from the spec: `AddPreloadEnv` (not under `src/`).  §4.6: "append ...
preload-path ... environment variables". -/
def AddPreloadEnv (d : Deps) (container : Container) (installPath : String) : Container :=
  { container with env := container.env ++ d.preloadEnv installPath }

/-- Modelled from the spec: `AddNetworkZoneEnv` (not under `src/`).  §4.6: "append
... network-zone environment variables". -/
def AddNetworkZoneEnv (d : Deps) (container : Container) (networkZone : String) : Container :=
  { container with env := container.env ++ d.networkZoneEnv networkZone }

/-- Modelled from the spec: `AddVersionDetectionEnvs` (not under `src/`).  §4.6:
"append version-detection environment variables". -/
def AddVersionDetectionEnvs (d : Deps) (container : Container) (ns : Namespace) : Container :=
  { container with env := container.env ++ d.versionDetectionEnvs ns }

/-- `addOneAgentToContainer` (containers.go 48-64). -/
def addOneAgentToContainer (d : Deps) (dk : DynaKube) (container : Container)
    (ns : Namespace) (installPath : String) : Container :=
  let c1 := addVolumeMounts d container installPath
  let c2 := AddDeploymentMetadataEnv d c1 dk
  let c3 := AddPreloadEnv d c2 installPath
  let c4 := if dk.networkZone ≠ "" then AddNetworkZoneEnv d c3 dk.networkZone else c3
  let c5 := if dk.ffLabelVersionDetection then AddVersionDetectionEnvs d c4 ns else c4
  setIsInjectedEnv c5

/-- Modelled from the spec: `BaseRequest.NewContainers` (package `common`, not under
`src/`).  §4.6: "every user container not already carrying the injected-marker":
the user containers the predicate rejects, in pod order. -/
def NewContainers (request : BaseRequest) (isInjected : Container → Bool) : List Container :=
  request.pod.containers.filter (fun c => !isInjected c)

/-- `mutateUserContainers` (containers.go 38-46).  `NewContainers` returns pointers
into the pod's container list and the loop updates each of them in place: the
containers the predicate rejects are replaced where they stand. -/
def mutateUserContainers (d : Deps) (request : BaseRequest) (installPath : String) :
    Bool × BaseRequest :=
  let newContainers := NewContainers request containerIsInjected
  let containers := request.pod.containers.map (fun c =>
    if containerIsInjected c then c
    else addOneAgentToContainer d request.dynaKube c request.nspace installPath)
  (decide (newContainers.length > 0),
   { request with pod := { request.pod with containers := containers } })

/-- `Mutator.Reinvoke` (containers.go 28-32): the result and the request
afterwards. -/
def Mutator.Reinvoke (d : Deps) (request : ReinvocationRequest) :
    Bool × ReinvocationRequest :=
  let installPath :=
    maputils.GetField request.base.pod.annotations AnnotationInstallPath DefaultInstallPath
  let r := mutateUserContainers d request.base installPath
  (r.1, { base := r.2 })

/-- Modelled from the spec: the package-level `oneagent.Reinvoke` that
`handlePodReinvocation` calls on the base request; only the method
`Mutator.Reinvoke` is under `src/`.  §4.4: the reinvocation runs "the
user-container pass": the method on the reinvocation request of that base. -/
def Reinvoke (d : Deps) (request : BaseRequest) : Bool × BaseRequest :=
  let r := Mutator.Reinvoke d { base := request }
  (r.1, r.2.base)

/-- Modelled from the spec: `addCSIBinVolume` (not under `src/`).  §4.5: the
CSI-style volume is added to the pod. -/
def addCSIBinVolume (d : Deps) (pod : Pod) (dkName maxTimeout : String) : Pod :=
  { pod with volumes := pod.volumes ++ [d.csiBinVolume dkName maxTimeout] }

/-- Modelled from the spec: `addEmptyDirBinVolume` (not under `src/`).  §4.5: the
ephemeral empty-directory volume is added to the pod. -/
def addEmptyDirBinVolume (d : Deps) (pod : Pod) : Pod :=
  { pod with volumes := pod.volumes ++ [d.emptyDirBinVolume] }

/-- Modelled from the spec: `addInitVolumeMounts` (not under `src/`).  §4.5: "mount
points for the chosen volume" are appended to the install container. -/
def addInitVolumeMounts (d : Deps) (initContainer : Container) : Container :=
  { initContainer with volumeMounts := initContainer.volumeMounts ++ d.initVolumeMounts }

/-- `getTechnology` (init.go 77-88). -/
def getTechnology (pod : Pod) (dk : DynaKube) : String :=
  match maputils.lookup pod.annotations AnnotationTechnologies with
  | some technology => technology
  | none =>
    let technology := dk.ffNodeImagePullTechnology
    if technology ≠ "" then technology else ""

/-- `addInitArgs` (init.go 48-75): the install container afterwards and the
returned error. -/
def addInitArgs (pod : Pod) (initContainer : Container) (dk : DynaKube)
    (installPath : String) : Container × Option Err :=
  let args : List arg.Arg := [
    { name := SourceFolderFlag, value := AgentCodeModuleSource },
    { name := TargetFolderFlag, value := binInitMountPath },
    { name := InstallPathFlag, value := installPath }]
  let fullstack : Except Err (List arg.Arg) :=
    if dk.cloudNativeFullstack then
      match dk.TenantUUID with
      | Except.error err => Except.error err
      | Except.ok tenantUUID =>
        Except.ok (args ++ [{ name := IsFullstackFlag }, { name := TenantFlag, value := tenantUUID }])
    else Except.ok args
  match fullstack with
  | Except.error err => (initContainer, some err)
  | Except.ok args1 =>
    let technology := getTechnology pod dk
    let args2 :=
      if technology ≠ "" then args1 ++ [{ name := TechnologyFlag, value := technology }]
      else args1
    ({ initContainer with args := initContainer.args ++ arg.ConvertArgsToStrings args2 }, none)

/-- `mutateInitContainer` (init.go 18-46): the request afterwards and the returned
error. -/
def mutateInitContainer (d : Deps) (mutationRequest : MutationRequest)
    (installPath : String) : MutationRequest × Option Err :=
  let isCSI := IsCSIVolume mutationRequest.base
  let isSelfExtractingImage := IsSelfExtractingImage mutationRequest.base isCSI
  let pod1 :=
    if isCSI then
      addCSIBinVolume d mutationRequest.base.pod mutationRequest.base.dynaKube.name
        mutationRequest.base.dynaKube.ffCSIMaxRetryTimeout
    else addEmptyDirBinVolume d mutationRequest.base.pod
  let ic1 : Container :=
    if isSelfExtractingImage then { mutationRequest.installContainer with command := [] }
    else if !isCSI then
      let downloadArgs : List arg.Arg := [
        { name := TargetVersionFlag, value := mutationRequest.base.dynaKube.codeModulesVersion },
        { name := TechnologiesFlag, value := d.queryEscape (maputils.GetField
            mutationRequest.base.pod.annotations AnnotationTechnologies "all") },
        { name := FlavorFlag,
          value := maputils.GetField mutationRequest.base.pod.annotations AnnotationFlavor "" }]
      { mutationRequest.installContainer with
        args := mutationRequest.installContainer.args ++ arg.ConvertArgsToStrings downloadArgs }
    else mutationRequest.installContainer
  let ic2 := addInitVolumeMounts d ic1
  let r := addInitArgs pod1 ic2 mutationRequest.base.dynaKube installPath
  ({ mutationRequest with
      base := { mutationRequest.base with pod := pod1 }, installContainer := r.1 }, r.2)

/-- `Mutator.Mutate` (mutator.go 82-93): the request afterwards and the returned
error. -/
def Mutator.Mutate (d : Deps) (request : MutationRequest) : MutationRequest × Option Err :=
  let installPath :=
    maputils.GetField request.base.pod.annotations AnnotationInstallPath DefaultInstallPath
  let r := mutateInitContainer d request installPath
  match r.2 with
  | some err => (r.1, some err)
  | none =>
    let u := mutateUserContainers d r.1.base installPath
    ({ r.1 with base := u.2 }, none)

/-- Modelled from the spec: the package-level `oneagent.Mutate` called by
`handlePodMutation`, whose boolean result is `updated`; only the method
`Mutator.Mutate` is under `src/`.  §4.3 steps 2 and 3: the init-container
arguments and volumes are built, then the user-container pass runs, and the
result tells whether the pass mutated a container.  As in `Mutator.Mutate` the
pass is skipped when building the init container fails; nothing was then
mutated. -/
def Mutate (d : Deps) (request : MutationRequest) : Bool × MutationRequest :=
  let installPath :=
    maputils.GetField request.base.pod.annotations AnnotationInstallPath DefaultInstallPath
  let r := mutateInitContainer d request installPath
  match r.2 with
  | some _ => (false, r.1)
  | none =>
    let u := mutateUserContainers d r.1.base installPath
    (u.1, { r.1 with base := u.2 })

end oneagent

/-! ## Package `metadata` (`mutator.go`) -/

namespace metadata

/-- Modelled from the spec: the annotation keys of package `metadata` are declared
outside `src/`; §6 lists them as distinct keys. -/
def AnnotationInjected : String := "metadata-enrichment.dynatrace.com/injected"

/-- Modelled from the spec: see `AnnotationInjected`. -/
def AnnotationWorkloadKind : String := "metadata.dynatrace.com/k8s.workload.kind"

/-- Modelled from the spec: see `AnnotationInjected`. -/
def AnnotationWorkloadName : String := "metadata.dynatrace.com/k8s.workload.name"

/-- `IsInjected` (mutator.go 31-33). -/
def IsInjected (request : BaseRequest) : Bool :=
  maputils.GetFieldBool request.pod.annotations AnnotationInjected false

/-- `SetInjectedAnnotation` (mutator.go 77-83). -/
def SetInjectedAnnotation (pod : Pod) : Pod :=
  { pod with annotations := maputils.insert pod.annotations AnnotationInjected "true" }

/-- `SetWorkloadAnnotations` (mutator.go 85-92). -/
def SetWorkloadAnnotations (pod : Pod) (workload : WorkloadInfo) : Pod :=
  let annotations1 := maputils.insert pod.annotations AnnotationWorkloadKind workload.kind
  { pod with annotations := maputils.insert annotations1 AnnotationWorkloadName workload.name }

/-- `addMetadataToInitArgs` (mutator.go 62-75); `maps.Copy` writes every copied
entry into `UserDefined`.  `CopyMetadataFromNamespace` is outside `src/`; the map
it returns is taken from `Deps`. -/
def addMetadataToInitArgs (d : Deps) (request : MutationRequest) (attributes : Attributes) :
    Attributes :=
  match d.copyMetadataFromNamespace request.base.pod request.base.nspace request.base.dynaKube with
  | none => attributes
  | some copiedMetadataAnnotations =>
    let userDefined0 : Option StrMap := some (attributes.userDefined.getD [])
    let userDefined1 :=
      copiedMetadataAnnotations.foldl (fun m kv => maputils.insert m kv.1 kv.2) userDefined0
    { attributes with userDefined := userDefined1 }

/-- `Mutate` (mutator.go 35-60): the request afterwards and the returned error. -/
def Mutate (d : Deps) (wh : webhook) (request : MutationRequest) :
    MutationRequest × Option Err :=
  match wh.retrieveWorkload request with
  | Except.error err => (request, some err)
  | Except.ok workloadInfo =>
    let attributes0 : Attributes :=
      { workloadKind := workloadInfo.kind, workloadName := workloadInfo.name }
    let attributes := addMetadataToInitArgs d request attributes0
    let pod1 := SetInjectedAnnotation request.base.pod
    let pod2 := SetWorkloadAnnotations pod1 workloadInfo
    let request2 := { request with base := { request.base with pod := pod2 } }
    match d.attributesToArgs attributes with
    | Except.error err => (request2, some err)
    | Except.ok args =>
      ({ request2 with installContainer :=
          { request2.installContainer with args := request2.installContainer.args ++ args } },
       none)

end metadata

/-! ## Package `pod` (`handle.go`) -/

namespace pod

/-- Modelled from the spec: the reasons of package `pod` are declared outside
`src/`; §4.2 and §4.3 name them. -/
def NoBootstrapperConfigReason : String := "NoBootstrapperConfig"

/-- Modelled from the spec: see `NoBootstrapperConfigReason`; the reason is named by
`handle_test.go` 252. -/
def NoCodeModulesImageReason : String := "NoCodeModulesImage"

/-- Modelled from the spec: see `NoBootstrapperConfigReason`. -/
def NoMutationNeededReason : String := "NoMutationNeeded"

/-- Modelled from the spec: `consts.BootstrapperInitSecretName`, declared outside
`src/`: the name of the namespace-local config secret. -/
def BootstrapperInitSecretName : String := "dynatrace-bootstrapper-config"

/-- Modelled from the spec: `consts.BootstrapperInitCertsSecretName`, declared
outside `src/`: the name of the namespace-local certificate secret. -/
def BootstrapperInitCertsSecretName : String := "dynatrace-bootstrapper-certs"

/-- Modelled from the spec: `bootstrapperconfig.GetSourceConfigSecretName` (not under
`src/`): the source secret of a DynaKube. -/
def GetSourceConfigSecretName (dkName : String) : String := dkName ++ "-bootstrapper-config"

/-- Modelled from the spec: `bootstrapperconfig.GetSourceCertsSecretName` (not under
`src/`): the source certificate secret of a DynaKube. -/
def GetSourceCertsSecretName (dkName : String) : String := dkName ++ "-bootstrapper-certs"

/-- `IsEnabled` (handle.go 19-31); `none` when `oacommon.IsEnabled` does not
return. -/
def IsEnabled (mutationRequest : MutationRequest) : Option Bool :=
  let ffEnabled := mutationRequest.base.dynaKube.ffNodeImagePull
  (oneagent.IsEnabled mutationRequest.base).map (fun oaEnabled =>
    let defaultVolumeType :=
      if mutationRequest.base.dynaKube.csiAvailable then oneagent.CSIVolumeType
      else oneagent.EphemeralVolumeType
    let correctVolumeType :=
      maputils.GetField mutationRequest.base.pod.annotations oneagent.AnnotationVolumeType
        defaultVolumeType == oneagent.EphemeralVolumeType
    ffEnabled && oaEnabled && correctVolumeType)

/-- The request with its pod replaced (a write through `mutationRequest.Pod`). -/
def withPod (mutationRequest : MutationRequest) (p : Pod) : MutationRequest :=
  { mutationRequest with base := { mutationRequest.base with pod := p } }

/-- `replicateSecret` (handle.go 149-162). -/
def replicateSecret (wh : webhook) (mutationRequest : MutationRequest)
    (sourceSecretName targetSecretName : String) : Option Err :=
  let err := wh.apiReaderGet mutationRequest.context targetSecretName
    mutationRequest.base.nspace.name
  if k8serrors.IsNotFound err then
    wh.replicate mutationRequest.context mutationRequest.base.dynaKube sourceSecretName
      targetSecretName mutationRequest.base.nspace.name
  else none

/-- `isInputSecretPresent` (handle.go 127-147): the result and the request
afterwards. -/
def isInputSecretPresent (wh : webhook) (mutationRequest : MutationRequest)
    (sourceSecretName targetSecretName : String) : Bool × MutationRequest :=
  let err := replicateSecret wh mutationRequest sourceSecretName targetSecretName
  if k8serrors.IsNotFound err then
    (false, withPod mutationRequest
      (oneagent.SetNotInjectedAnnotations mutationRequest.base.pod NoBootstrapperConfigReason))
  else if err.isSome then
    (false, withPod mutationRequest
      (oneagent.SetNotInjectedAnnotations mutationRequest.base.pod NoBootstrapperConfigReason))
  else (true, mutationRequest)

/-- `isInjected` (handle.go 68-77). -/
def isInjected (mutationRequest : MutationRequest) : Bool :=
  (container.FindInitContainerInPodSpec mutationRequest.base.pod InstallContainerName).isSome

/-- Modelled from the spec: `createInitContainerBase` (not under `src/`).  §4.3 step
1: the base definition carries the reserved name; image and resources come from
the configuration. -/
def createInitContainerBase (d : Deps) (p : Pod) (dk : DynaKube) (isOpenShift : Bool) :
    Container :=
  { d.initContainerBase p dk isOpenShift with name := InstallContainerName }

/-- Modelled from the spec: `addContainerAttributes` (not under `src/`).  §4.4: "the
container-attribute mutation on the already-known install container": the
serialized attributes are appended to the install container's arguments, and a
serialization error is returned. -/
def addContainerAttributes (d : Deps) (request : MutationRequest) :
    MutationRequest × Option Err :=
  match d.containerAttributes request with
  | Except.error err => (request, some err)
  | Except.ok args =>
    ({ request with installContainer :=
        { request.installContainer with args := request.installContainer.args ++ args } }, none)

/-- Modelled from the spec: `addPodAttributes` (not under `src/`).  §4.3 step 4:
"append pod-level attributes ... as additional init-container arguments"; an
error is returned. -/
def addPodAttributes (d : Deps) (request : MutationRequest) : MutationRequest × Option Err :=
  match d.podAttributes request with
  | Except.error err => (request, some err)
  | Except.ok args =>
    ({ request with installContainer :=
        { request.installContainer with args := request.installContainer.args ++ args } }, none)

/-- Modelled from the spec: `addInitContainerToPod` (not under `src/`).  §4.3 step 5:
"append the install container to the workload's init-container list". -/
def addInitContainerToPod (p : Pod) (initContainer : Container) : Pod :=
  { p with initContainers := p.initContainers ++ [initContainer] }

/-- `setDynatraceInjectedAnnotation` (handle.go 164-171). -/
def setDynatraceInjectedAnnotation (mutationRequest : MutationRequest) : MutationRequest :=
  let annotations1 :=
    maputils.insert mutationRequest.base.pod.annotations AnnotationDynatraceInjected "true"
  withPod mutationRequest
    { mutationRequest.base.pod with
      annotations := maputils.delete annotations1 AnnotationDynatraceReason }

/-- `handlePodMutation` (handle.go 79-110): the request afterwards and the returned
error. -/
def handlePodMutation (d : Deps) (wh : webhook) (mutationRequest : MutationRequest) :
    MutationRequest × Option Err :=
  let installContainer := createInitContainerBase d mutationRequest.base.pod
    mutationRequest.base.dynaKube wh.isOpenShift
  let r0 := { mutationRequest with installContainer := installContainer }
  let r1 := addContainerAttributes d r0
  match r1.2 with
  | some err => (r1.1, some err)
  | none =>
    let u := oneagent.Mutate d r1.1
    let r2 :=
      if !u.1 then
        withPod u.2 ( oneagent.SetNotInjectedAnnotations u.2.base.pod NoMutationNeededReason)
      else u.2
    let r3 := addPodAttributes d r2
    match r3.2 with
    | some err => (r3.1, some err)
    | none =>
      let r4 := metadata.Mutate d wh r3.1
      match r4.2 with
      | some err => (r4.1, some err)
      | none =>
        let pod5 := oneagent.SetInjectedAnnotation r4.1.base.pod
        (withPod r4.1 (addInitContainerToPod pod5 r4.1.installContainer), none)

/-- `handlePodReinvocation` (handle.go 112-125): the result and the request
afterwards.  `InstallContainer` points at the init container found in the pod, so
what `addContainerAttributes` writes to it is stored back into the pod's list.
`handle` calls this function only when the install container exists. -/
def handlePodReinvocation (d : Deps) (mutationRequest : MutationRequest) :
    Bool × MutationRequest :=
  match container.FindInitContainerInPodSpec mutationRequest.base.pod InstallContainerName with
  | none => (false, mutationRequest)
  | some installContainer =>
    let r0 := { mutationRequest with installContainer := installContainer }
    let r1 := addContainerAttributes d r0
    let initContainers1 := container.storeInitContainer InstallContainerName
      r1.1.installContainer r1.1.base.pod.initContainers
    let r2 := withPod r1.1 { r1.1.base.pod with initContainers := initContainers1 }
    match r1.2 with
    | some _ => (false, r2)
    | none =>
      let u := oneagent.Reinvoke d r2.base
      (u.1, { r2 with base := u.2 })

/-- `handle` (handle.go 33-66): the request afterwards and the returned error. -/
def handle (d : Deps) (wh : webhook) (mutationRequest : MutationRequest) :
    MutationRequest × Option Err :=
  let s1 := isInputSecretPresent wh mutationRequest
    (GetSourceConfigSecretName mutationRequest.base.dynaKube.name) BootstrapperInitSecretName
  if !s1.1 then (s1.2, none)
  else
    let s2 :=
      if mutationRequest.base.dynaKube.agCertificateNeeded
          || decide (mutationRequest.base.dynaKube.trustedCAs ≠ "") then
        isInputSecretPresent wh s1.2
          (GetSourceCertsSecretName mutationRequest.base.dynaKube.name)
          BootstrapperInitCertsSecretName
      else (true, s1.2)
    if !s2.1 then (s2.2, none)
    else if isInjected s2.2 then
      let v := handlePodReinvocation d s2.2
      if v.1 then (v.2, none)
      else ( setDynatraceInjectedAnnotation v.2, none)
    else
      let m := handlePodMutation d wh s2.2
      match m.2 with
      | some err => (m.1, some err)
      | none => ( setDynatraceInjectedAnnotation m.1, none)

end pod

/-! ## Vocabulary of the statements -/

/-- The effective volume type in the words of the contract of `IsEnabled`: the
pod's volume-type annotation when it is set, otherwise "csi" when the DynaKube
reports CSI available and "ephemeral" when it does not. -/
def effectiveVolumeType (req : MutationRequest) : String :=
  match maputils.lookup req.base.pod.annotations oneagent.AnnotationVolumeType with
  | some v => if v = "" then (if req.base.dynaKube.csiAvailable then "csi" else "ephemeral") else v
  | none => if req.base.dynaKube.csiAvailable then "csi" else "ephemeral"

/-- The request with the CSI availability of its DynaKube replaced. -/
def withCSIAvailable (req : MutationRequest) (b : Bool) : MutationRequest :=
  { req with base := { req.base with dynaKube := { req.base.dynaKube with csiAvailable := b } } }

/-- The value of an annotation of the request's pod, `none` when the key is absent. -/
def annotationOf (req : MutationRequest) (key : String) : Option String :=
  maputils.lookup req.base.pod.annotations key

/-- A certificate bundle is required (handle.go 40). -/
def certsNeeded (dk : DynaKube) : Bool :=
  dk.agCertificateNeeded || decide (dk.trustedCAs ≠ "")

/-- What `replicateSecret` returns for the config secret pair (handle.go 36). -/
def configSecretError (wh : webhook) (req : MutationRequest) : Option Err :=
  pod.replicateSecret wh req (pod.GetSourceConfigSecretName req.base.dynaKube.name)
    pod.BootstrapperInitSecretName

/-- What `replicateSecret` returns for the certificate secret pair (handle.go 41). -/
def certsSecretError (wh : webhook) (req : MutationRequest) : Option Err :=
  pod.replicateSecret wh req (pod.GetSourceCertsSecretName req.base.dynaKube.name)
    pod.BootstrapperInitCertsSecretName

/-- The required target secrets are present: `replicateSecret` returns nil for the
config pair and, when a certificate bundle is required, for the certificate pair. -/
def secretsPresent (wh : webhook) (req : MutationRequest) : Bool :=
  (configSecretError wh req).isNone &&
    (!certsNeeded req.base.dynaKube || (certsSecretError wh req).isNone)

/-- The request that `isInputSecretPresent` leaves when a secret pair fails. -/
def notInjectedNoConfig (req : MutationRequest) : MutationRequest :=
  pod.withPod req (oneagent.SetNotInjectedAnnotations req.base.pod pod.NoBootstrapperConfigReason)

/-- The part of `handle` after the secret checks (handle.go 46-65). -/
def handleInjection (d : Deps) (wh : webhook) (req : MutationRequest) :
    MutationRequest × Option Err :=
  if pod.isInjected req then
    (if (pod.handlePodReinvocation d req).1 then ((pod.handlePodReinvocation d req).2, none)
     else ( pod.setDynatraceInjectedAnnotation (pod.handlePodReinvocation d req).2, none))
  else
    match (pod.handlePodMutation d wh req).2 with
    | some err => ((pod.handlePodMutation d wh req).1, some err)
    | none => ( pod.setDynatraceInjectedAnnotation (pod.handlePodMutation d wh req).1, none)

/-- The tenant identifier is resolvable when full-stack mode needs it. -/
def tenantResolved (dk : DynaKube) : Bool :=
  !dk.cloudNativeFullstack || decide (dk.statusTenantUUID ≠ "")

/-- The variables that `addOneAgentToContainer` appends before the marker
(containers.go 52-61). -/
def agentEnvs (d : Deps) (dk : DynaKube) (ns : Namespace) (installPath : String) : List EnvVar :=
  d.deploymentMetadataEnv dk ++ d.preloadEnv installPath ++
    (if dk.networkZone ≠ "" then d.networkZoneEnv dk.networkZone else []) ++
    (if dk.ffLabelVersionDetection then d.versionDetectionEnvs ns else [])

/-- The injected-marker variable (containers.go 68-71). -/
def markerEnv : EnvVar := { name := oneagent.isInjectedEnv, value := "true" }

/-- The install path of a request (containers.go 29). -/
def installPathOf (r : BaseRequest) : String :=
  maputils.GetField r.pod.annotations oneagent.AnnotationInstallPath oneagent.DefaultInstallPath

/-- The number of variables of a container that carry the marker name. -/
def markerCount (c : Container) : Nat :=
  (c.env.filter (fun e => e.name == oneagent.isInjectedEnv)).length

/-- The number of init containers of a pod that carry the reserved install name. -/
def installCount (p : Pod) : Nat :=
  (p.initContainers.filter (fun c => c.name == InstallContainerName)).length

/-- The request after line 80 of `handlePodMutation`: the install container is the
fresh base definition. -/
def mutationBase (d : Deps) (wh : webhook) (req : MutationRequest) : MutationRequest :=
  { req with installContainer :=
      pod.createInitContainerBase d req.base.pod req.base.dynaKube wh.isOpenShift }

/-- The request after lines 87-90 of `handlePodMutation`, from the request `r1`
that `addContainerAttributes` left. -/
def afterOneAgent (d : Deps) (r1 : MutationRequest) : MutationRequest :=
  if !(oneagent.Mutate d r1).1 then
    pod.withPod (oneagent.Mutate d r1).2
      ( oneagent.SetNotInjectedAnnotations (oneagent.Mutate d r1).2.base.pod
        pod.NoMutationNeededReason)
  else (oneagent.Mutate d r1).2

/-- The request that `addContainerAttributes` leaves in `handlePodMutation`
(handle.go 80-82). -/
def afterContainerAttributes (d : Deps) (wh : webhook) (req : MutationRequest) :
    MutationRequest :=
  (pod.addContainerAttributes d (mutationBase d wh req)).1

/-- The result `updated` of `oacommon.Mutate` in `handlePodMutation` (handle.go 87). -/
def updatedByMutate (d : Deps) (wh : webhook) (req : MutationRequest) : Bool :=
  (oneagent.Mutate d (afterContainerAttributes d wh req)).1

/-- The request on which `handlePodMutation` calls `addPodAttributes` (handle.go 92). -/
def beforePodAttributes (d : Deps) (wh : webhook) (req : MutationRequest) : MutationRequest :=
  afterOneAgent d (afterContainerAttributes d wh req)

/-- The request on which `handlePodMutation` calls `metacommon.Mutate` (handle.go 99). -/
def beforeMetadata (d : Deps) (wh : webhook) (req : MutationRequest) : MutationRequest :=
  (pod.addPodAttributes d (beforePodAttributes d wh req)).1

/-- The error of the first stage of the full mutation path that fails, `none` when
every stage succeeds: container attributes (handle.go 82), pod attributes
(handle.go 92), metadata enrichment (handle.go 99). -/
def firstStageError (d : Deps) (wh : webhook) (req : MutationRequest) : Option Err :=
  match (pod.addContainerAttributes d (mutationBase d wh req)).2 with
  | some err => some err
  | none =>
    match (pod.addPodAttributes d (beforePodAttributes d wh req)).2 with
    | some err => some err
    | none => (metadata.Mutate d wh (beforeMetadata d wh req)).2

/-- A request of `TestIsEnabled`: the pod annotations, whether OneAgent application
monitoring is configured, the node-image-pull flag and the CSI availability. -/
def isEnabledCase (annotations : Option StrMap) (oneAgent ff csi : Bool) : MutationRequest :=
  { base := { pod := { name := "", annotations := annotations },
              dynaKube := { namespaceSelector := if oneAgent then some {} else none,
                            ffNodeImagePull := ff, csiAvailable := csi },
              nspace := { name := "" } },
    installContainer := { name := "", image := "" } }

/-- The pod's volume-type override, `none` when the pod sets none. -/
def volumeTypeOverride (r : BaseRequest) : Option String :=
  match maputils.lookup r.pod.annotations oneagent.AnnotationVolumeType with
  | some v => if v = "" then none else some v
  | none => none

/-- The volume of the strategy that `IsCSIVolume` selects (init.go 22-29). -/
def binVolumeOf (d : Deps) (r : BaseRequest) : Volume :=
  if oneagent.IsCSIVolume r then d.csiBinVolume r.dynaKube.name r.dynaKube.ffCSIMaxRetryTimeout
  else d.emptyDirBinVolume

/-- The download-args triple: target version, URL-escaped technologies annotation
with default "all", flavor annotation with default empty (init.go 34-38). -/
def downloadArgs (d : Deps) (r : BaseRequest) : List arg.Arg :=
  [{ name := oneagent.TargetVersionFlag, value := r.dynaKube.codeModulesVersion },
   { name := oneagent.TechnologiesFlag, value := d.queryEscape
      (maputils.GetField r.pod.annotations oneagent.AnnotationTechnologies "all") },
   { name := oneagent.FlavorFlag,
     value := maputils.GetField r.pod.annotations oneagent.AnnotationFlavor "" }]

/-- The technology in the words of the contract of `addInitArgs`: the value of the
pod's technologies annotation whenever the key is present, otherwise the
node-image-pull technology of the DynaKube. -/
def technologyOf (annotations : Option StrMap) (dk : DynaKube) : String :=
  match maputils.lookup annotations oneagent.AnnotationTechnologies with
  | some technology => technology
  | none => dk.ffNodeImagePullTechnology

/-- The arguments of `addInitArgs` in the words of its contract: source folder,
target folder and install path, then the fullstack flag and the tenant in
full-stack mode, then the technology when it is not empty. -/
def initArgsOf (annotations : Option StrMap) (dk : DynaKube) (installPath : String) :
    List arg.Arg :=
  [{ name := oneagent.SourceFolderFlag, value := oneagent.AgentCodeModuleSource },
   { name := oneagent.TargetFolderFlag, value := oneagent.binInitMountPath },
   { name := oneagent.InstallPathFlag, value := installPath }] ++
  (if dk.cloudNativeFullstack then
    [{ name := oneagent.IsFullstackFlag },
     { name := oneagent.TenantFlag, value := dk.statusTenantUUID }]
   else []) ++
  (if technologyOf annotations dk ≠ "" then
    [{ name := oneagent.TechnologyFlag, value := technologyOf annotations dk }]
   else [])

/-- What `addInitArgs` appends to the arguments of the install container: the
arguments of its contract, nothing when the tenant lookup fails. -/
def initArgsAppended (annotations : Option StrMap) (dk : DynaKube) (installPath : String) :
    List String :=
  if tenantResolved dk then arg.ConvertArgsToStrings (initArgsOf annotations dk installPath)
  else []

/-- The per-pod opt-in: the inject annotation read as a boolean, the
automatic-injection feature flag when it is not set (mutator.go 42). -/
def podOptIn (request : BaseRequest) : Bool :=
  maputils.GetFieldBool request.pod.annotations oneagent.AnnotationInject
    request.dynaKube.ffAutomaticInjection

/-- A match expression is well-formed: its key is a qualified name, its values are
valid label values, and it is "In" or "NotIn" with at least one value or
"Exists" or "DoesNotExist" with none. -/
def expressionValid (e : metav1.LabelSelectorRequirement) : Bool :=
  validation.IsQualifiedName e.key && e.values.all validation.IsValidLabelValue &&
    (((e.operator == "In" || e.operator == "NotIn") && !e.values.isEmpty) ||
     ((e.operator == "Exists" || e.operator == "DoesNotExist") && e.values.isEmpty))

/-- A label selector is well-formed: every match label has a qualified name as key
and a valid label value, and every match expression is well-formed. -/
def selectorValid (ps : metav1.LabelSelector) : Bool :=
  ps.matchLabels.all (fun kv =>
    validation.IsQualifiedName kv.1 && validation.IsValidLabelValue kv.2) &&
  ps.matchExpressions.all expressionValid

/-- A match expression holds on a label set: "In", the label is set to one of the
values; "NotIn", the label is not set or set to none of the values; "Exists", the
label is set; "DoesNotExist", it is not. -/
def expressionHolds (e : metav1.LabelSelectorRequirement) (ls : Option StrMap) : Bool :=
  if e.operator = "In" then
    match maputils.lookup ls e.key with
    | some v => e.values.contains v
    | none => false
  else if e.operator = "NotIn" then
    match maputils.lookup ls e.key with
    | some v => !(e.values.contains v)
    | none => true
  else if e.operator = "Exists" then (maputils.lookup ls e.key).isSome
  else if e.operator = "DoesNotExist" then (maputils.lookup ls e.key).isNone
  else false

/-- The requirements of a label selector hold on a label set: every match label is
a label of the set with that value and every match expression holds. -/
def selectorHolds (ps : metav1.LabelSelector) (ls : Option StrMap) : Bool :=
  ps.matchLabels.all (fun kv => maputils.lookup ls kv.1 == some kv.2) &&
  ps.matchExpressions.all (fun e => expressionHolds e ls)

/-- A label selector matches a label set, in the words of the Kubernetes API: the
selector is well-formed (Kubernetes evaluates no other) and its requirements
hold on the set.  Stated without the conversion that the code runs. -/
def selectorMatches (ps : metav1.LabelSelector) (ls : Option StrMap) : Bool :=
  selectorValid ps && selectorHolds ps ls

/-- The attribute set that `metadata.Mutate` serializes for a workload
(mutator.go 43-48). -/
def attributesOf (d : Deps) (request : MutationRequest) (workload : WorkloadInfo) :
    Attributes :=
  metadata.addMetadataToInitArgs d request
    { workloadKind := workload.kind, workloadName := workload.name }

/-- The number of entries of an annotation map, zero for the nil map. -/
def entryCount (m : Option StrMap) : Nat :=
  (m.getD []).length

/-! ## Sample inputs -/

/-- Sample helpers: every helper succeeds. -/
def sampleDeps : Deps where
  queryEscape := id
  initContainerBase := fun _ dk _ => { name := "", image := dk.codeModulesImage }
  containerAttributes := fun r =>
    Except.ok (r.base.pod.containers.map (fun c => "--attribute-container=" ++ c.name))
  podAttributes := fun r => Except.ok ["--attribute=k8s.pod.name=" ++ r.base.pod.name]
  csiBinVolume := fun dkName timeout =>
    { name := "oneagent-bin", source := "csi:" ++ dkName ++ ":" ++ timeout }
  emptyDirBinVolume := { name := "oneagent-bin", source := "emptyDir" }
  initVolumeMounts := [{ name := "oneagent-bin", mountPath := "/mnt/bin" }]
  agentVolumeMounts := fun installPath => [{ name := "oneagent-bin", mountPath := installPath }]
  deploymentMetadataEnv := fun dk => [{ name := "DT_DEPLOYMENT_METADATA", value := dk.name }]
  preloadEnv := fun installPath => [{ name := "LD_PRELOAD", value := installPath }]
  networkZoneEnv := fun zone => [{ name := "DT_NETWORK_ZONE", value := zone }]
  versionDetectionEnvs := fun _ => [{ name := "DT_RELEASE_VERSION", value := "" }]
  copyMetadataFromNamespace := fun _ _ _ => none
  attributesToArgs := fun a => Except.ok ["--attribute=k8s.workload.kind=" ++ a.workloadKind,
    "--attribute=k8s.workload.name=" ++ a.workloadName]

/-- Sample helpers whose pod-attribute serialization fails. -/
def sampleDepsPodAttributesFail : Deps :=
  { sampleDeps with podAttributes := fun _ => Except.error (Err.other "pod attributes") }

/-- A cluster in which the target secrets exist and the owner lookup succeeds. -/
def sampleWebhook : webhook where
  apiReaderGet := fun _ _ _ => none
  replicate := fun _ _ _ _ _ => none
  retrieveWorkload := fun _ => Except.ok { kind := "deployment", name := "web" }

/-- A cluster without the target secrets and without their sources. -/
def sampleWebhookNoSource : webhook where
  apiReaderGet := fun _ name _ => some (Err.notFound name)
  replicate := fun _ _ source _ _ => some (Err.notFound source)
  retrieveWorkload := fun _ => Except.ok { kind := "deployment", name := "web" }

/-- A cluster without the target secrets in which replication is cut short by the
cancellation of the context. -/
def sampleWebhookCanceled : webhook where
  apiReaderGet := fun _ name _ => some (Err.notFound name)
  replicate := fun _ _ _ _ _ => some Err.canceled
  retrieveWorkload := fun _ => Except.ok { kind := "deployment", name := "web" }

/-- A cluster in which reading the target secret fails with an error other than
NotFound. -/
def sampleWebhookReadFails : webhook where
  apiReaderGet := fun _ _ _ => some (Err.other "connection refused")
  replicate := fun _ _ source _ _ => some (Err.notFound source)
  retrieveWorkload := fun _ => Except.ok { kind := "deployment", name := "web" }

/-- The DynaKube of the tests: application monitoring with a code-modules image. -/
def sampleDynaKube : DynaKube :=
  { name := "dynakube", namespaceSelector := some {}, codeModulesImage := "custom-image" }

/-- A pod with one user container and one init container of its own. -/
def samplePod : Pod :=
  { name := "test-pod", podNamespace := "test-namespace",
    containers := [{ name := "container", image := "alpine" }],
    initContainers := [{ name := "init-container", image := "alpine" }],
    volumes := [{ name := "volume", source := "emptyDir" }] }

/-- A request for `samplePod`. -/
def sampleRequest : MutationRequest :=
  { base := { pod := samplePod, dynaKube := sampleDynaKube, nspace := { name := "test-namespace" } },
    installContainer := { name := "", image := "" } }

/-- A pod without the install container whose only user container carries the
marker already. -/
def samplePodMarked : Pod :=
  { samplePod with
    containers := [{ name := "container", image := "alpine",
                     env := [{ name := "DT_CM_INJECTED", value := "true" }] }] }

/-- A request for `samplePodMarked`: the user-container pass has nothing to mutate. -/
def sampleRequestMarked : MutationRequest :=
  { base := { pod := samplePodMarked, dynaKube := sampleDynaKube,
              nspace := { name := "test-namespace" } },
    installContainer := { name := "", image := "" } }

/-- The request of the test "no codeModulesImage": the empty DynaKube. -/
def sampleRequestNoImage : MutationRequest :=
  { base := { pod := samplePod, dynaKube := {}, nspace := { name := "test-namespace" } },
    installContainer := { name := "", image := "" } }

/-- A reinvocation: the pod of `sampleRequest` after a first `handle`, to which a
later webhook has added a user container. -/
def sampleRequestReinvoked : MutationRequest :=
  let first := (pod.handle sampleDeps sampleWebhook sampleRequest).1
  let added : Container := { name := "sidecar", image := "envoy" }
  pod.withPod first { first.base.pod with containers := first.base.pod.containers ++ [added] }

/-- The reinvocation `sampleRequestReinvoked` on a pod that carries a
dynatrace-reason annotation. -/
def sampleRequestReinvokedReason : MutationRequest :=
  pod.withPod sampleRequestReinvoked
    { sampleRequestReinvoked.base.pod with
      annotations := some [(AnnotationDynatraceReason, "beep")] }

/-- A request whose DynaKube reports CSI as not available and whose pod asks for the
"csi" volume type. -/
def sampleRequestCsiOverride : MutationRequest :=
  { base := { pod := { samplePod with
                annotations := some [(oneagent.AnnotationVolumeType, "csi")] },
              dynaKube := sampleDynaKube, nspace := { name := "test-namespace" } },
    installContainer := { name := "dynatrace-operator", image := "custom-image" } }

/-- A request whose DynaKube reports CSI available, without the node-image-pull flag
and without an override on the pod. -/
def sampleRequestCsi : MutationRequest :=
  { base := { pod := samplePod, dynaKube := { sampleDynaKube with csiAvailable := true },
              nspace := { name := "test-namespace" } },
    installContainer := { name := "dynatrace-operator", image := "custom-image",
                          command := ["/usr/bin/bootstrap"] } }

/-- A request in cloud-native full-stack mode whose tenant identifier is not known. -/
def sampleRequestFullstack : MutationRequest :=
  { base := { pod := samplePod,
              dynaKube := { sampleDynaKube with cloudNativeFullstack := true },
              nspace := { name := "test-namespace" } },
    installContainer := { name := "dynatrace-operator", image := "custom-image" } }

/-- A DynaKube in cloud-native full-stack mode with a known tenant identifier. -/
def sampleDynaKubeFullstack : DynaKube :=
  { sampleDynaKube with cloudNativeFullstack := true, statusTenantUUID := "abc12345",
                        csiAvailable := true }

/-- A pod that names its technologies. -/
def samplePodTechnologies : Pod :=
  { samplePod with annotations := some [(oneagent.AnnotationTechnologies, "java")] }

/-- A base request for the checks of `oneagent.IsEnabled`: the pod annotations, the
namespace selector of the DynaKube and the labels of the namespace. -/
def enabledCase (annotations : Option StrMap) (selector : Option metav1.LabelSelector)
    (nsLabels : Option StrMap) : BaseRequest :=
  { pod := { name := "test-pod", annotations := annotations },
    dynaKube := { name := "dynakube", namespaceSelector := selector },
    nspace := { name := "test-namespace", labels := nsLabels } }

/-- A request whose pod carries the given annotations. -/
def requestWithAnnotations (annotations : Option StrMap) : MutationRequest :=
  pod.withPod sampleRequest { samplePod with annotations := annotations }

/-! ## Lemmas on maps -/

theorem find_filter_ne (l : StrMap) (k k2 : String) (h : k2 ≠ k) :
    (l.filter (fun kv => !(kv.1 == k))).find? (fun kv => kv.1 == k2) =
      l.find? (fun kv => kv.1 == k2) := by
  induction l with
  | nil => rfl
  | cons x xs ih =>
    by_cases hx : x.1 = k
    · have hp : (!(x.1 == k)) = false := by simp [hx]
      have hq : (x.1 == k2) = false := by
        rw [beq_eq_false_iff_ne]; exact fun h2 => h (h2.symm.trans hx)
      rw [List.filter_cons_of_neg (by simp [hx]), List.find?_cons_of_neg _ (by simp [hq]), ih]
    · by_cases hx2 : x.1 = k2
      · rw [List.filter_cons_of_pos (by simp [hx]), List.find?_cons_of_pos _ (by simp [hx2]),
          List.find?_cons_of_pos _ (by simp [hx2])]
      · rw [List.filter_cons_of_pos (by simp [hx]), List.find?_cons_of_neg _ (by simp [hx2]),
          List.find?_cons_of_neg _ (by simp [hx2]), ih]

theorem find_filter_self (l : StrMap) (k : String) :
    (l.filter (fun kv => !(kv.1 == k))).find? (fun kv => kv.1 == k) = none := by
  induction l with
  | nil => rfl
  | cons x xs ih =>
    by_cases hx : x.1 = k
    · rw [List.filter_cons_of_neg (by simp [hx]), ih]
    · rw [List.filter_cons_of_pos (by simp [hx]), List.find?_cons_of_neg _ (by simp [hx]), ih]

theorem lookup_insert_self (m : Option StrMap) (k v : String) :
    maputils.lookup (maputils.insert m k v) k = some v := by
  simp [maputils.lookup, maputils.insert]

theorem lookup_insert_ne (m : Option StrMap) (k v k2 : String) (h : k2 ≠ k) :
    maputils.lookup (maputils.insert m k v) k2 = maputils.lookup m k2 := by
  have hk : ¬ k = k2 := fun e => h e.symm
  cases m with
  | none => simp [maputils.lookup, maputils.insert, List.find?_cons, hk]
  | some l =>
    simp only [maputils.lookup, maputils.insert, Option.getD_some, List.find?_cons]
    have : ((k, v).1 == k2) = false := by simpa using hk
    rw [this]
    simp only [find_filter_ne l k k2 h]

theorem lookup_delete_self (m : Option StrMap) (k : String) :
    maputils.lookup (maputils.delete m k) k = none := by
  cases m with
  | none => rfl
  | some l => simp [maputils.lookup, maputils.delete, find_filter_self]

theorem lookup_delete_ne (m : Option StrMap) (k k2 : String) (h : k2 ≠ k) :
    maputils.lookup (maputils.delete m k) k2 = maputils.lookup m k2 := by
  cases m with
  | none => rfl
  | some l => simp [maputils.lookup, maputils.delete, find_filter_ne l k k2 h]

/-! ## Lemmas on `handle` -/

theorem isInputSecretPresent_eq (wh : webhook) (req : MutationRequest) (s t : String) :
    pod.isInputSecretPresent wh req s t =
      if (pod.replicateSecret wh req s t).isNone then (true, req)
      else (false, notInjectedNoConfig req) := by
  unfold pod.isInputSecretPresent notInjectedNoConfig
  cases h : pod.replicateSecret wh req s t with
  | none => simp [k8serrors.IsNotFound]
  | some e => cases e <;> simp [k8serrors.IsNotFound]

theorem handle_eq (d : Deps) (wh : webhook) (req : MutationRequest) :
    pod.handle d wh req =
      if secretsPresent wh req then handleInjection d wh req
      else (notInjectedNoConfig req, none) := by
  unfold pod.handle secretsPresent certsNeeded configSecretError certsSecretError
  simp only [isInputSecretPresent_eq]
  cases h1 : (pod.replicateSecret wh req (pod.GetSourceConfigSecretName req.base.dynaKube.name)
    pod.BootstrapperInitSecretName).isNone
  · simp
  · simp only [if_true, Bool.not_true, Bool.true_and]
    cases h2 : (pod.replicateSecret wh req (pod.GetSourceCertsSecretName req.base.dynaKube.name)
      pod.BootstrapperInitCertsSecretName).isNone <;>
    cases ha : req.base.dynaKube.agCertificateNeeded <;>
    by_cases ht : req.base.dynaKube.trustedCAs = "" <;>
    simp [ht] <;> rfl

theorem handle_secrets_absent (d : Deps) (wh : webhook) (req : MutationRequest)
    (h : secretsPresent wh req = false) :
    pod.handle d wh req = (notInjectedNoConfig req, none) := by
  rw [handle_eq, h]; rfl

theorem handle_secrets_present (d : Deps) (wh : webhook) (req : MutationRequest)
    (h : secretsPresent wh req = true) :
    pod.handle d wh req = handleInjection d wh req := by
  rw [handle_eq, h]; rfl

/-! ## Lemmas on `IsEnabled` -/

theorem getField_volumeType (req : MutationRequest) :
    maputils.GetField req.base.pod.annotations oneagent.AnnotationVolumeType
      (if req.base.dynaKube.csiAvailable then oneagent.CSIVolumeType
        else oneagent.EphemeralVolumeType) = effectiveVolumeType req := by
  unfold maputils.GetField effectiveVolumeType oneagent.CSIVolumeType oneagent.EphemeralVolumeType
  cases maputils.lookup req.base.pod.annotations oneagent.AnnotationVolumeType <;> rfl

theorem pod_IsEnabled_eq (req : MutationRequest) :
    pod.IsEnabled req = (oneagent.IsEnabled req.base).map (fun oaEnabled =>
      req.base.dynaKube.ffNodeImagePull && oaEnabled &&
        decide (effectiveVolumeType req = "ephemeral")) := by
  unfold pod.IsEnabled
  simp only [getField_volumeType]
  congr 1

theorem oneagent_IsEnabled_withCSI (req : MutationRequest) (b : Bool) :
    oneagent.IsEnabled (withCSIAvailable req b).base = oneagent.IsEnabled req.base := by
  rfl


/-! ## Frame lemmas of the stages -/

theorem addContainerAttributes_base (d : Deps) (r : MutationRequest) :
    (pod.addContainerAttributes d r).1.base = r.base := by
  unfold pod.addContainerAttributes
  cases d.containerAttributes r <;> rfl

theorem addContainerAttributes_name (d : Deps) (r : MutationRequest) :
    (pod.addContainerAttributes d r).1.installContainer.name = r.installContainer.name := by
  unfold pod.addContainerAttributes
  cases d.containerAttributes r <;> rfl

theorem addPodAttributes_base (d : Deps) (r : MutationRequest) :
    (pod.addPodAttributes d r).1.base = r.base := by
  unfold pod.addPodAttributes
  cases d.podAttributes r <;> rfl

theorem addPodAttributes_name (d : Deps) (r : MutationRequest) :
    (pod.addPodAttributes d r).1.installContainer.name = r.installContainer.name := by
  unfold pod.addPodAttributes
  cases d.podAttributes r <;> rfl

theorem addInitArgs_name (p : Pod) (c : Container) (dk : DynaKube) (path : String) :
    (oneagent.addInitArgs p c dk path).1.name = c.name := by
  unfold oneagent.addInitArgs
  simp only
  split <;> rfl

theorem addInitArgs_ok (p : Pod) (c : Container) (dk : DynaKube) (path : String) :
    (oneagent.addInitArgs p c dk path).2 = none ↔ tenantResolved dk = true := by
  unfold oneagent.addInitArgs tenantResolved DynaKube.TenantUUID
  cases hf : dk.cloudNativeFullstack <;> by_cases ht : dk.statusTenantUUID = "" <;> simp [ht]

theorem mutateInitContainer_ok (d : Deps) (r : MutationRequest) (path : String) :
    (oneagent.mutateInitContainer d r path).2 = none ↔ tenantResolved r.base.dynaKube = true := by
  unfold oneagent.mutateInitContainer
  exact addInitArgs_ok _ _ _ _

theorem mutateInitContainer_name (d : Deps) (r : MutationRequest) (path : String) :
    (oneagent.mutateInitContainer d r path).1.installContainer.name = r.installContainer.name := by
  unfold oneagent.mutateInitContainer
  simp only [addInitArgs_name]
  unfold oneagent.addInitVolumeMounts
  split
  · rfl
  · split <;> rfl

theorem mutateInitContainer_pod (d : Deps) (r : MutationRequest) (path : String) :
    (oneagent.mutateInitContainer d r path).1.base.pod.annotations = r.base.pod.annotations ∧
    (oneagent.mutateInitContainer d r path).1.base.pod.containers = r.base.pod.containers ∧
    (oneagent.mutateInitContainer d r path).1.base.pod.initContainers = r.base.pod.initContainers ∧
    (oneagent.mutateInitContainer d r path).1.base.dynaKube = r.base.dynaKube ∧
    (oneagent.mutateInitContainer d r path).1.base.nspace = r.base.nspace ∧
    (oneagent.mutateInitContainer d r path).1.context = r.context := by
  unfold oneagent.mutateInitContainer oneagent.addCSIBinVolume oneagent.addEmptyDirBinVolume
  refine ⟨?_, ?_, ?_, rfl, rfl, rfl⟩ <;> (dsimp only; split <;> rfl)

theorem addOneAgentToContainer_eq (d : Deps) (dk : DynaKube) (c : Container) (ns : Namespace)
    (path : String) :
    oneagent.addOneAgentToContainer d dk c ns path =
      { c with env := c.env ++ agentEnvs d dk ns path ++ [markerEnv],
               volumeMounts := c.volumeMounts ++ d.agentVolumeMounts path } := by
  unfold oneagent.addOneAgentToContainer agentEnvs markerEnv oneagent.setIsInjectedEnv
    oneagent.AddVersionDetectionEnvs oneagent.AddNetworkZoneEnv oneagent.AddPreloadEnv
    oneagent.AddDeploymentMetadataEnv oneagent.addVolumeMounts
  by_cases hz : dk.networkZone = "" <;> cases hv : dk.ffLabelVersionDetection <;>
    simp [hz, List.append_assoc]

theorem mutateUserContainers_updated (d : Deps) (r : BaseRequest) (path : String) :
    (oneagent.mutateUserContainers d r path).1 =
      r.pod.containers.any (fun c => !oneagent.containerIsInjected c) := by
  unfold oneagent.mutateUserContainers oneagent.NewContainers
  simp only
  generalize r.pod.containers = l
  induction l with
  | nil => rfl
  | cons x xs ih =>
    cases hx : oneagent.containerIsInjected x
    · simp [List.filter_cons, hx]
    · simpa [List.filter_cons, hx] using ih

theorem map_id_of_injected (f : Container → Container) (l : List Container)
    (h : ∀ c ∈ l, oneagent.containerIsInjected c = true) :
    l.map (fun c => if oneagent.containerIsInjected c then c else f c) = l := by
  induction l with
  | nil => rfl
  | cons x xs ih =>
    have hx := h x (List.mem_cons_self x xs)
    have hxs := ih (fun c hc => h c (List.mem_cons_of_mem x hc))
    simp only [List.map_cons, hx, if_true, hxs]

theorem mutateUserContainers_noop (d : Deps) (r : BaseRequest) (path : String)
    (h : ∀ c ∈ r.pod.containers, oneagent.containerIsInjected c = true) :
    oneagent.mutateUserContainers d r path = (false, r) := by
  have h1 := mutateUserContainers_updated d r path
  have h2 : r.pod.containers.any (fun c => !oneagent.containerIsInjected c) = false := by
    rw [List.any_eq_false]
    intro c hc
    simp [h c hc]
  rw [h2] at h1
  have h3 : (oneagent.mutateUserContainers d r path).2 = r := by
    unfold oneagent.mutateUserContainers
    simp only [map_id_of_injected _ _ h]
  exact Prod.ext h1 h3

theorem Mutate_frame (d : Deps) (r : MutationRequest) :
    (oneagent.Mutate d r).2.base.pod.annotations = r.base.pod.annotations ∧
    (oneagent.Mutate d r).2.base.pod.initContainers = r.base.pod.initContainers ∧
    (oneagent.Mutate d r).2.installContainer.name = r.installContainer.name ∧
    (oneagent.Mutate d r).2.base.dynaKube = r.base.dynaKube ∧
    (oneagent.Mutate d r).2.base.nspace = r.base.nspace ∧
    (oneagent.Mutate d r).2.context = r.context := by
  have hp := mutateInitContainer_pod d r (installPathOf r.base)
  have hn := mutateInitContainer_name d r (installPathOf r.base)
  unfold installPathOf at hp hn
  unfold oneagent.Mutate
  simp only
  split
  · exact ⟨hp.1, hp.2.2.1, hn, hp.2.2.2.1, hp.2.2.2.2.1, hp.2.2.2.2.2⟩
  · exact ⟨hp.1, hp.2.2.1, hn, hp.2.2.2.1, hp.2.2.2.2.1, hp.2.2.2.2.2⟩

theorem Mutate_resolved (d : Deps) (r : MutationRequest)
    (h : tenantResolved r.base.dynaKube = true) :
    (oneagent.Mutate d r).1 = r.base.pod.containers.any (fun c => !oneagent.containerIsInjected c) ∧
    (oneagent.Mutate d r).2.base.pod.containers = r.base.pod.containers.map (fun c =>
      if oneagent.containerIsInjected c then c
      else oneagent.addOneAgentToContainer d r.base.dynaKube c r.base.nspace
        (installPathOf r.base)) := by
  have hok := (mutateInitContainer_ok d r (installPathOf r.base)).2 h
  have hp := mutateInitContainer_pod d r (installPathOf r.base)
  unfold installPathOf at hok hp
  unfold oneagent.Mutate installPathOf
  simp only [hok]
  constructor
  · rw [mutateUserContainers_updated, hp.2.1]
  · unfold oneagent.mutateUserContainers
    simp only [hp.2.1, hp.2.2.2.1, hp.2.2.2.2.1]

theorem handlePodMutation_eq (d : Deps) (wh : webhook) (req : MutationRequest) :
    pod.handlePodMutation d wh req =
      match (pod.addContainerAttributes d (mutationBase d wh req)).2 with
      | some err => ((pod.addContainerAttributes d (mutationBase d wh req)).1, some err)
      | none =>
        let r2 := afterOneAgent d (pod.addContainerAttributes d (mutationBase d wh req)).1
        match (pod.addPodAttributes d r2).2 with
        | some err => ((pod.addPodAttributes d r2).1, some err)
        | none =>
          let r4 := metadata.Mutate d wh (pod.addPodAttributes d r2).1
          match r4.2 with
          | some err => (r4.1, some err)
          | none =>
            (pod.withPod r4.1 (pod.addInitContainerToPod
              ( oneagent.SetInjectedAnnotation r4.1.base.pod) r4.1.installContainer), none) := by
  rfl

theorem afterOneAgent_frame (d : Deps) (r1 : MutationRequest) :
    (afterOneAgent d r1).base.pod.initContainers = r1.base.pod.initContainers ∧
    (afterOneAgent d r1).installContainer.name = r1.installContainer.name ∧
    (afterOneAgent d r1).base.pod.containers = (oneagent.Mutate d r1).2.base.pod.containers ∧
    (afterOneAgent d r1).base.pod.annotations =
      (if (oneagent.Mutate d r1).1 then r1.base.pod.annotations
       else (oneagent.SetNotInjectedAnnotations r1.base.pod pod.NoMutationNeededReason).annotations) := by
  have hf := Mutate_frame d r1
  unfold afterOneAgent
  cases hu : (oneagent.Mutate d r1).1
  · simp only [Bool.not_false, if_true, pod.withPod, oneagent.SetNotInjectedAnnotations, hf.1]
    exact ⟨hf.2.1, hf.2.2.1, trivial, by simp⟩
  · simp only [Bool.not_true, if_true]
    exact ⟨hf.2.1, hf.2.2.1, rfl, hf.1⟩

theorem metadata_Mutate_frame (d : Deps) (wh : webhook) (r : MutationRequest) :
    (metadata.Mutate d wh r).1.base.pod.containers = r.base.pod.containers ∧
    (metadata.Mutate d wh r).1.base.pod.initContainers = r.base.pod.initContainers ∧
    (metadata.Mutate d wh r).1.installContainer.name = r.installContainer.name := by
  unfold metadata.Mutate
  cases wh.retrieveWorkload r with
  | error e => exact ⟨rfl, rfl, rfl⟩
  | ok info =>
    simp only
    cases d.attributesToArgs _ with
    | error e => exact ⟨rfl, rfl, rfl⟩
    | ok args => exact ⟨rfl, rfl, rfl⟩

theorem metadata_Mutate_lookup (d : Deps) (wh : webhook) (r : MutationRequest) (k : String)
    (h1 : k ≠ metadata.AnnotationInjected) (h2 : k ≠ metadata.AnnotationWorkloadKind)
    (h3 : k ≠ metadata.AnnotationWorkloadName) :
    maputils.lookup (metadata.Mutate d wh r).1.base.pod.annotations k =
      maputils.lookup r.base.pod.annotations k := by
  unfold metadata.Mutate
  cases wh.retrieveWorkload r with
  | error e => rfl
  | ok info =>
    have hl : maputils.lookup (metadata.SetWorkloadAnnotations
        ( metadata.SetInjectedAnnotation r.base.pod) info).annotations k =
        maputils.lookup r.base.pod.annotations k := by
      unfold metadata.SetWorkloadAnnotations metadata.SetInjectedAnnotation
      simp only
      rw [lookup_insert_ne _ _ _ _ h3, lookup_insert_ne _ _ _ _ h2, lookup_insert_ne _ _ _ _ h1]
    simp only
    cases d.attributesToArgs _ with
    | error e => exact hl
    | ok args => exact hl

theorem afterContainerAttributes_base (d : Deps) (wh : webhook) (req : MutationRequest) :
    (afterContainerAttributes d wh req).base = req.base := by
  unfold afterContainerAttributes
  rw [addContainerAttributes_base]; rfl

theorem afterContainerAttributes_name (d : Deps) (wh : webhook) (req : MutationRequest) :
    (afterContainerAttributes d wh req).installContainer.name = InstallContainerName := by
  unfold afterContainerAttributes
  rw [addContainerAttributes_name]; rfl

theorem afterOneAgent_lookup (d : Deps) (r1 : MutationRequest) (k : String)
    (h1 : k ≠ oneagent.AnnotationInjected) (h2 : k ≠ oneagent.AnnotationReason) :
    maputils.lookup (afterOneAgent d r1).base.pod.annotations k =
      maputils.lookup r1.base.pod.annotations k := by
  rw [(afterOneAgent_frame d r1).2.2.2]
  cases (oneagent.Mutate d r1).1
  · simp only [Bool.false_eq_true, if_false, oneagent.SetNotInjectedAnnotations]
    rw [lookup_insert_ne _ _ _ _ h2, lookup_insert_ne _ _ _ _ h1]
  · rfl

theorem afterOneAgent_injected (d : Deps) (r1 : MutationRequest) :
    maputils.lookup (afterOneAgent d r1).base.pod.annotations oneagent.AnnotationInjected =
      if (oneagent.Mutate d r1).1 then
        maputils.lookup r1.base.pod.annotations oneagent.AnnotationInjected
      else some "false" := by
  rw [(afterOneAgent_frame d r1).2.2.2]
  cases (oneagent.Mutate d r1).1
  · simp only [Bool.false_eq_true, if_false, oneagent.SetNotInjectedAnnotations]
    rw [lookup_insert_ne _ _ _ _ (by decide), lookup_insert_self]
  · rfl

theorem afterOneAgent_reason (d : Deps) (r1 : MutationRequest) :
    maputils.lookup (afterOneAgent d r1).base.pod.annotations oneagent.AnnotationReason =
      if (oneagent.Mutate d r1).1 then
        maputils.lookup r1.base.pod.annotations oneagent.AnnotationReason
      else some pod.NoMutationNeededReason := by
  rw [(afterOneAgent_frame d r1).2.2.2]
  cases (oneagent.Mutate d r1).1
  · simp only [Bool.false_eq_true, if_false, oneagent.SetNotInjectedAnnotations]
    rw [lookup_insert_self]
  · rfl

/-- What `handlePodMutation` leaves when it returns nil. -/
theorem handlePodMutation_ok (d : Deps) (wh : webhook) (req : MutationRequest)
    (h : (pod.handlePodMutation d wh req).2 = none) :
    (pod.handlePodMutation d wh req).1.base.pod.initContainers =
      req.base.pod.initContainers ++ [(pod.handlePodMutation d wh req).1.installContainer] ∧
    (pod.handlePodMutation d wh req).1.installContainer.name = InstallContainerName ∧
    (pod.handlePodMutation d wh req).1.base.pod.containers =
      (oneagent.Mutate d (afterContainerAttributes d wh req)).2.base.pod.containers ∧
    maputils.lookup (pod.handlePodMutation d wh req).1.base.pod.annotations
      oneagent.AnnotationInjected = some "true" ∧
    (∀ k, k ≠ oneagent.AnnotationInjected → k ≠ metadata.AnnotationInjected →
      k ≠ metadata.AnnotationWorkloadKind → k ≠ metadata.AnnotationWorkloadName →
      maputils.lookup (pod.handlePodMutation d wh req).1.base.pod.annotations k =
        maputils.lookup (afterOneAgent d (afterContainerAttributes d wh req)).base.pod.annotations
          k) := by
  rw [handlePodMutation_eq] at h ⊢
  unfold afterContainerAttributes
  generalize hr1 : pod.addContainerAttributes d (mutationBase d wh req) = a at h ⊢
  have hb : a.1.base = req.base := by rw [← hr1, addContainerAttributes_base]; rfl
  have hn : a.1.installContainer.name = InstallContainerName := by
    rw [← hr1, addContainerAttributes_name]; rfl
  obtain ⟨a1, a2⟩ := a
  cases a2 with
  | some e => simp at h
  | none =>
    simp only at h hb hn ⊢
    have ho := afterOneAgent_frame d a1
    generalize hr2 : afterOneAgent d a1 = r2 at h ho ⊢
    have hpb := addPodAttributes_base d r2
    have hpn := addPodAttributes_name d r2
    generalize hr3 : pod.addPodAttributes d r2 = b at h hpb hpn ⊢
    obtain ⟨b1, b2⟩ := b
    cases b2 with
    | some e => simp at h
    | none =>
      simp only at h hpb hpn ⊢
      have hm := metadata_Mutate_frame d wh b1
      have hml := metadata_Mutate_lookup d wh b1
      generalize hr4 : metadata.Mutate d wh b1 = m at h hm hml ⊢
      obtain ⟨m1, m2⟩ := m
      cases m2 with
      | some e => simp at h
      | none =>
        simp only at hm hml ⊢
        simp only [pod.withPod, pod.addInitContainerToPod, oneagent.SetInjectedAnnotation]
        refine ⟨?_, ?_, ?_, ?_, ?_⟩
        · rw [hm.2.1, hpb, ho.1, hb]
        · rw [hm.2.2, hpn, ho.2.1, hn]
        · rw [hm.1, hpb, ho.2.2.1]
        · exact lookup_insert_self _ _ _
        · intro k k1 k2 k3 k4
          rw [lookup_insert_ne _ _ _ _ k1, hml k k2 k3 k4, hpb]

theorem handlePodMutation_error (d : Deps) (wh : webhook) (req : MutationRequest) :
    (pod.handlePodMutation d wh req).2 = firstStageError d wh req := by
  rw [handlePodMutation_eq]
  unfold firstStageError beforeMetadata beforePodAttributes afterContainerAttributes
  cases h1 : (pod.addContainerAttributes d (mutationBase d wh req)).2 with
  | some e => rfl
  | none =>
    simp only
    cases h2 : (pod.addPodAttributes d
      (afterOneAgent d (pod.addContainerAttributes d (mutationBase d wh req)).1)).2 with
    | some e => rfl
    | none =>
      simp only
      cases h3 : (metadata.Mutate d wh (pod.addPodAttributes d
        (afterOneAgent d (pod.addContainerAttributes d (mutationBase d wh req)).1)).1).2 with
      | some e => rfl
      | none => rfl

/-- What `handlePodMutation` leaves when it returns an error. -/
theorem handlePodMutation_err (d : Deps) (wh : webhook) (req : MutationRequest) (e : Err)
    (h : (pod.handlePodMutation d wh req).2 = some e) :
    (pod.handlePodMutation d wh req).1.base.pod.initContainers = req.base.pod.initContainers ∧
    (maputils.lookup (pod.handlePodMutation d wh req).1.base.pod.annotations
        oneagent.AnnotationInjected =
        maputils.lookup req.base.pod.annotations oneagent.AnnotationInjected ∨
      maputils.lookup (pod.handlePodMutation d wh req).1.base.pod.annotations
        oneagent.AnnotationInjected = some "false") ∧
    (∀ k, k ≠ oneagent.AnnotationInjected → k ≠ oneagent.AnnotationReason →
      k ≠ metadata.AnnotationInjected →
      k ≠ metadata.AnnotationWorkloadKind → k ≠ metadata.AnnotationWorkloadName →
      maputils.lookup (pod.handlePodMutation d wh req).1.base.pod.annotations k =
        maputils.lookup req.base.pod.annotations k) := by
  rw [handlePodMutation_eq] at h ⊢
  have hb := afterContainerAttributes_base d wh req
  unfold afterContainerAttributes at hb
  generalize hr1 : pod.addContainerAttributes d (mutationBase d wh req) = a at h hb ⊢
  obtain ⟨a1, a2⟩ := a
  cases a2 with
  | some e1 =>
    simp only at hb ⊢
    rw [hb]
    exact ⟨rfl, Or.inl rfl, fun _ _ _ _ _ _ => rfl⟩
  | none =>
    simp only at h hb ⊢
    have ho := afterOneAgent_frame d a1
    have hol := afterOneAgent_lookup d a1
    have hoi := afterOneAgent_injected d a1
    generalize hr2 : afterOneAgent d a1 = r2 at h ho hol hoi ⊢
    have hinj : maputils.lookup r2.base.pod.annotations oneagent.AnnotationInjected =
          maputils.lookup req.base.pod.annotations oneagent.AnnotationInjected ∨
        maputils.lookup r2.base.pod.annotations oneagent.AnnotationInjected = some "false" := by
      rw [hoi, hb]
      cases (oneagent.Mutate d a1).1
      · exact Or.inr rfl
      · exact Or.inl rfl
    have hpb := addPodAttributes_base d r2
    generalize hr3 : pod.addPodAttributes d r2 = b at h hpb ⊢
    obtain ⟨b1, b2⟩ := b
    cases b2 with
    | some e2 =>
      simp only at hpb ⊢
      rw [hpb]
      exact ⟨by rw [ho.1, hb], hinj, fun k k1 k2 _ _ _ => by rw [hol k k1 k2, hb]⟩
    | none =>
      simp only at h hpb ⊢
      have hm := metadata_Mutate_frame d wh b1
      have hml := metadata_Mutate_lookup d wh b1
      generalize hr4 : metadata.Mutate d wh b1 = m at h hm hml ⊢
      obtain ⟨m1, m2⟩ := m
      cases m2 with
      | none => simp at h
      | some e3 =>
        simp only at hm hml ⊢
        refine ⟨by rw [hm.2.1, hpb, ho.1, hb], ?_, ?_⟩
        · rw [hml _ (by decide) (by decide) (by decide), hpb]
          exact hinj
        · intro k k1 k2 k3 k4 k5
          rw [hml k k3 k4 k5, hpb, hol k k1 k2, hb]

theorem notInjectedNoConfig_lookup (req : MutationRequest) (k : String)
    (h1 : k ≠ oneagent.AnnotationInjected) (h2 : k ≠ oneagent.AnnotationReason) :
    annotationOf (notInjectedNoConfig req) k = annotationOf req k := by
  unfold annotationOf notInjectedNoConfig pod.withPod oneagent.SetNotInjectedAnnotations
  simp only
  rw [lookup_insert_ne _ _ _ _ h2, lookup_insert_ne _ _ _ _ h1]

theorem notInjectedNoConfig_marks (req : MutationRequest) :
    annotationOf (notInjectedNoConfig req) oneagent.AnnotationInjected = some "false" ∧
    annotationOf (notInjectedNoConfig req) oneagent.AnnotationReason =
      some pod.NoBootstrapperConfigReason := by
  unfold annotationOf notInjectedNoConfig pod.withPod oneagent.SetNotInjectedAnnotations
  simp only
  exact ⟨by rw [lookup_insert_ne _ _ _ _ (by decide), lookup_insert_self],
    lookup_insert_self _ _ _⟩

theorem setDynatraceInjected_lookup (r : MutationRequest) (k : String)
    (h1 : k ≠ AnnotationDynatraceInjected) (h2 : k ≠ AnnotationDynatraceReason) :
    annotationOf ( pod.setDynatraceInjectedAnnotation r) k = annotationOf r k := by
  unfold annotationOf pod.setDynatraceInjectedAnnotation pod.withPod
  simp only
  rw [lookup_delete_ne _ _ _ h2, lookup_insert_ne _ _ _ _ h1]

theorem setDynatraceInjected_marks (r : MutationRequest) :
    annotationOf ( pod.setDynatraceInjectedAnnotation r) AnnotationDynatraceInjected = some "true" ∧
    annotationOf ( pod.setDynatraceInjectedAnnotation r) AnnotationDynatraceReason = none := by
  unfold annotationOf pod.setDynatraceInjectedAnnotation pod.withPod
  simp only
  exact ⟨by rw [lookup_delete_ne _ _ _ (by decide), lookup_insert_self],
    lookup_delete_self _ _⟩

theorem Mutate_updated_of_new (d : Deps) (wh : webhook) (req : MutationRequest)
    (hten : tenantResolved req.base.dynaKube = true)
    (hnew : ∃ c ∈ req.base.pod.containers, oneagent.containerIsInjected c = false) :
    updatedByMutate d wh req = true := by
  unfold updatedByMutate
  have hb := afterContainerAttributes_base d wh req
  rw [(Mutate_resolved d _ (by rw [hb]; exact hten)).1, hb, List.any_eq_true]
  obtain ⟨c, hc, hi⟩ := hnew
  exact ⟨c, hc, by simp [hi]⟩

theorem notInjectedNoConfig_pod (req : MutationRequest) :
    (notInjectedNoConfig req).base.pod.containers = req.base.pod.containers ∧
    (notInjectedNoConfig req).base.pod.initContainers = req.base.pod.initContainers ∧
    (notInjectedNoConfig req).base.pod.volumes = req.base.pod.volumes :=
  ⟨rfl, rfl, rfl⟩

theorem secretsPresent_false_of_error (wh : webhook) (req : MutationRequest) (e : Err)
    (h : configSecretError wh req = some e ∨
      (certsNeeded req.base.dynaKube = true ∧ certsSecretError wh req = some e)) :
    secretsPresent wh req = false := by
  unfold secretsPresent
  rcases h with h | ⟨hc, h⟩
  · rw [h]; rfl
  · rw [h, hc]; simp

theorem isNotFound_some (err : Option Err) (h : k8serrors.IsNotFound err = true) :
    ∃ e, err = some e := by
  cases err with
  | none => simp [k8serrors.IsNotFound] at h
  | some e => exact ⟨e, rfl⟩

theorem handlePodReinvocation_annotations (d : Deps) (r : MutationRequest) :
    (pod.handlePodReinvocation d r).2.base.pod.annotations = r.base.pod.annotations := by
  unfold pod.handlePodReinvocation
  cases container.FindInitContainerInPodSpec r.base.pod InstallContainerName with
  | none => rfl
  | some c =>
    simp only
    have hb := addContainerAttributes_base d { r with installContainer := c }
    generalize pod.addContainerAttributes d { r with installContainer := c } = a at hb ⊢
    obtain ⟨a1, a2⟩ := a
    simp only at hb
    cases a2 with
    | some e => simp only [pod.withPod, hb]
    | none => simp only [pod.withPod, oneagent.Reinvoke, oneagent.Mutator.Reinvoke,
      oneagent.mutateUserContainers, hb]

theorem containerIsInjected_addOneAgent (d : Deps) (dk : DynaKube) (c : Container)
    (ns : Namespace) (path : String) :
    oneagent.containerIsInjected (oneagent.addOneAgentToContainer d dk c ns path) = true := by
  rw [addOneAgentToContainer_eq]
  unfold oneagent.containerIsInjected env.IsIn markerEnv
  simp

theorem Reinvoke_containers (d : Deps) (request : ReinvocationRequest) :
    (oneagent.Mutator.Reinvoke d request).2.base.pod.containers =
      request.base.pod.containers.map (fun c =>
        if oneagent.containerIsInjected c then c
        else oneagent.addOneAgentToContainer d request.base.dynaKube c request.base.nspace
          (installPathOf request.base)) := by
  rfl

theorem not_injected_iff (r : MutationRequest) :
    pod.isInjected r = false ↔
      ∀ c ∈ r.base.pod.initContainers, (c.name == InstallContainerName) = false := by
  unfold pod.isInjected container.FindInitContainerInPodSpec
  cases hf : r.base.pod.initContainers.find? (fun c => c.name == InstallContainerName) with
  | none =>
    rw [List.find?_eq_none] at hf
    simp only [Option.isSome_none, true_iff]
    intro c hc
    simpa using hf c hc
  | some x =>
    simp only [Option.isSome_some, Bool.true_eq_false, false_iff]
    intro h
    have hx := List.find?_some hf
    have hm := List.mem_of_find?_eq_some hf
    rw [h x hm] at hx
    exact absurd hx (by decide)

theorem find_append_install (l : List Container) (x : Container)
    (hl : ∀ c ∈ l, (c.name == InstallContainerName) = false)
    (hx : x.name = InstallContainerName) :
    (l ++ [x]).find? (fun c => c.name == InstallContainerName) = some x := by
  induction l with
  | nil => simp [List.find?_cons, hx]
  | cons y ys ih =>
    have hy := hl y (List.mem_cons_self y ys)
    rw [List.cons_append, List.find?_cons_of_neg _ (by simp [hy])]
    exact ih (fun c hc => hl c (List.mem_cons_of_mem y hc))

theorem store_append_install (l : List Container) (x c : Container)
    (hl : ∀ c ∈ l, (c.name == InstallContainerName) = false)
    (hx : x.name = InstallContainerName) :
    container.storeInitContainer InstallContainerName c (l ++ [x]) = l ++ [c] := by
  induction l with
  | nil => simp [container.storeInitContainer, hx]
  | cons y ys ih =>
    have hy := hl y (List.mem_cons_self y ys)
    rw [List.cons_append, container.storeInitContainer]
    simp only [hy, Bool.false_eq_true, if_false, List.cons_append]
    rw [ih (fun c hc => hl c (List.mem_cons_of_mem y hc))]

theorem installCount_append (p : Pod) (l : List Container) (x : Container)
    (hp : p.initContainers = l ++ [x])
    (hl : ∀ c ∈ l, (c.name == InstallContainerName) = false)
    (hx : x.name = InstallContainerName) : installCount p = 1 := by
  unfold installCount
  rw [hp, List.filter_append]
  have h0 : l.filter (fun c => c.name == InstallContainerName) = [] := by
    rw [List.filter_eq_nil_iff]
    intro c hc; simp [hl c hc]
  rw [h0]
  simp [List.filter_cons, hx]

theorem markerCount_addOneAgent (d : Deps) (dk : DynaKube) (c : Container) (ns : Namespace)
    (path : String) (hc : oneagent.containerIsInjected c = false)
    (hfree : ∀ e ∈ agentEnvs d dk ns path, e.name ≠ oneagent.isInjectedEnv) :
    markerCount (oneagent.addOneAgentToContainer d dk c ns path) = 1 := by
  rw [addOneAgentToContainer_eq]
  unfold markerCount
  simp only [List.filter_append]
  have h0 : c.env.filter (fun e => e.name == oneagent.isInjectedEnv) = [] := by
    rw [List.filter_eq_nil_iff]
    intro e he
    unfold oneagent.containerIsInjected env.IsIn at hc
    rw [List.any_eq_false] at hc
    exact hc e he
  have h1 : (agentEnvs d dk ns path).filter (fun e => e.name == oneagent.isInjectedEnv) = [] := by
    rw [List.filter_eq_nil_iff]
    intro e he
    simpa using hfree e he
  rw [h0, h1]
  simp [markerEnv, List.filter_cons]

/-- The reinvocation of a pod whose last init container is the only one with the
install name and whose user containers all carry the marker. -/
theorem handlePodReinvocation_settled (d : Deps) (r : MutationRequest) (l : List Container)
    (x : Container) (hp : r.base.pod.initContainers = l ++ [x])
    (hl : ∀ c ∈ l, (c.name == InstallContainerName) = false)
    (hx : x.name = InstallContainerName)
    (hall : ∀ c ∈ r.base.pod.containers, oneagent.containerIsInjected c = true) :
    (pod.handlePodReinvocation d r).1 = false ∧
    (pod.handlePodReinvocation d r).2.base.pod.containers = r.base.pod.containers ∧
    ∃ c2, c2.name = InstallContainerName ∧
      (pod.handlePodReinvocation d r).2.base.pod.initContainers = l ++ [c2] := by
  unfold pod.handlePodReinvocation container.FindInitContainerInPodSpec
  rw [hp, find_append_install l x hl hx]
  simp only
  have hb := addContainerAttributes_base d { r with installContainer := x }
  have hn := addContainerAttributes_name d { r with installContainer := x }
  generalize pod.addContainerAttributes d { r with installContainer := x } = a at hb hn ⊢
  obtain ⟨a1, a2⟩ := a
  simp only at hb hn
  have hstore : container.storeInitContainer InstallContainerName a1.installContainer
      a1.base.pod.initContainers = l ++ [a1.installContainer] := by
    rw [hb]
    show container.storeInitContainer InstallContainerName a1.installContainer
      r.base.pod.initContainers = _
    rw [hp, store_append_install l x _ hl hx]
  have hcont : a1.base.pod.containers = r.base.pod.containers := by rw [hb]
  cases a2 with
  | some e =>
    simp only [pod.withPod, hstore]
    exact ⟨trivial, hcont, a1.installContainer, by rw [hn, hx], rfl⟩
  | none =>
    simp only [pod.withPod, hstore, oneagent.Reinvoke, oneagent.Mutator.Reinvoke]
    rw [mutateUserContainers_noop d _ _ (by
      intro c hc
      exact hall c (by rw [← hcont]; exact hc))]
    exact ⟨rfl, hcont, a1.installContainer, by rw [hn, hx], rfl⟩

theorem setDynatraceInjected_pod (r : MutationRequest) :
    ( pod.setDynatraceInjectedAnnotation r).base.pod.containers = r.base.pod.containers ∧
    ( pod.setDynatraceInjectedAnnotation r).base.pod.initContainers = r.base.pod.initContainers ∧
    ( pod.setDynatraceInjectedAnnotation r).base.dynaKube = r.base.dynaKube ∧
    ( pod.setDynatraceInjectedAnnotation r).base.nspace = r.base.nspace :=
  ⟨rfl, rfl, rfl, rfl⟩

/-- The reason annotation of a request is either as `handlePodMutation` found it or
the no-mutation-needed reason. -/
theorem handlePodMutation_reason (d : Deps) (wh : webhook) (req : MutationRequest) :
    maputils.lookup (pod.handlePodMutation d wh req).1.base.pod.annotations
        oneagent.AnnotationReason =
        maputils.lookup req.base.pod.annotations oneagent.AnnotationReason ∨
      maputils.lookup (pod.handlePodMutation d wh req).1.base.pod.annotations
        oneagent.AnnotationReason = some pod.NoMutationNeededReason := by
  rw [handlePodMutation_eq]
  have hb := afterContainerAttributes_base d wh req
  unfold afterContainerAttributes at hb
  generalize hr1 : pod.addContainerAttributes d (mutationBase d wh req) = a at hb ⊢
  obtain ⟨a1, a2⟩ := a
  cases a2 with
  | some e1 =>
    simp only at hb ⊢
    rw [hb]
    exact Or.inl rfl
  | none =>
    simp only at hb ⊢
    have hor := afterOneAgent_reason d a1
    generalize hr2 : afterOneAgent d a1 = r2 at hor ⊢
    have hre : maputils.lookup r2.base.pod.annotations oneagent.AnnotationReason =
          maputils.lookup req.base.pod.annotations oneagent.AnnotationReason ∨
        maputils.lookup r2.base.pod.annotations oneagent.AnnotationReason =
          some pod.NoMutationNeededReason := by
      rw [hor, hb]
      cases (oneagent.Mutate d a1).1
      · exact Or.inr rfl
      · exact Or.inl rfl
    have hpb := addPodAttributes_base d r2
    generalize hr3 : pod.addPodAttributes d r2 = b at hpb ⊢
    obtain ⟨b1, b2⟩ := b
    cases b2 with
    | some e2 =>
      simp only at hpb ⊢
      rw [hpb]
      exact hre
    | none =>
      simp only at hpb ⊢
      have hml := metadata_Mutate_lookup d wh b1 oneagent.AnnotationReason (by decide)
        (by decide) (by decide)
      generalize hr4 : metadata.Mutate d wh b1 = m at hml ⊢
      obtain ⟨m1, m2⟩ := m
      cases m2 with
      | some e3 =>
        simp only at hml ⊢
        rw [hml, hpb]
        exact hre
      | none =>
        simp only at hml ⊢
        simp only [pod.withPod, pod.addInitContainerToPod, oneagent.SetInjectedAnnotation]
        rw [lookup_insert_ne _ _ _ _ (by decide), hml, hpb]
        exact hre

/-- The model agrees with the table of `TestIsEnabled` (handle_test.go 42-95), each
case with CSI available and without. -/
theorem IsEnabled_test_table :
    pod.IsEnabled (isEnabledCase none false false true) = some false ∧
    pod.IsEnabled (isEnabledCase none false false false) = some false ∧
    pod.IsEnabled (isEnabledCase none true false true) = some false ∧
    pod.IsEnabled (isEnabledCase none true false false) = some false ∧
    pod.IsEnabled (isEnabledCase none true true true) = some false ∧
    pod.IsEnabled (isEnabledCase none true true false) = some true ∧
    pod.IsEnabled (isEnabledCase (some [(oneagent.AnnotationVolumeType, "ephemeral")])
      true true true) = some true ∧
    pod.IsEnabled (isEnabledCase (some [(oneagent.AnnotationVolumeType, "ephemeral")])
      true true false) = some true ∧
    pod.IsEnabled (isEnabledCase (some [(oneagent.AnnotationVolumeType, "csi")])
      true true true) = some false ∧
    pod.IsEnabled (isEnabledCase (some [(oneagent.AnnotationVolumeType, "csi")])
      true true false) = some false := by
  decide

/-- Whenever the user-container pass of the full mutation mutates nothing and every
stage succeeds, `handle` returns nil with the agent injected annotation "true" next
to the no-mutation-needed reason. -/
theorem handle_not_updated (d : Deps) (wh : webhook) (req : MutationRequest)
    (hnot : pod.isInjected req = false)
    (hsecrets : secretsPresent wh req = true)
    (hstages : firstStageError d wh req = none)
    (hup : updatedByMutate d wh req = false) :
    (pod.handle d wh req).2 = none ∧
    annotationOf (pod.handle d wh req).1 oneagent.AnnotationInjected = some "true" ∧
    annotationOf (pod.handle d wh req).1 oneagent.AnnotationReason =
      some pod.NoMutationNeededReason := by
  have hok : (pod.handlePodMutation d wh req).2 = none := by
    rw [handlePodMutation_error]; exact hstages
  have hm := handlePodMutation_ok d wh req hok
  have hh : pod.handle d wh req =
      ( pod.setDynatraceInjectedAnnotation (pod.handlePodMutation d wh req).1, none) := by
    rw [handle_secrets_present d wh req hsecrets]
    unfold handleInjection
    rw [hnot]
    simp only [Bool.false_eq_true, if_false, hok]
  rw [hh]
  refine ⟨rfl, ?_, ?_⟩
  · rw [setDynatraceInjected_lookup _ _ (by decide) (by decide)]
    exact hm.2.2.2.1
  · rw [setDynatraceInjected_lookup _ _ (by decide) (by decide)]
    unfold annotationOf
    rw [hm.2.2.2.2 _ (by decide) (by decide) (by decide) (by decide), afterOneAgent_reason]
    unfold updatedByMutate at hup
    rw [hup]
    rfl

/-- No path of `handle` writes the no-code-modules-image reason: the pod carries it
afterwards only when it carried it before. -/
theorem handle_never_no_code_modules_image (d : Deps) (wh : webhook) (req : MutationRequest)
    (h : annotationOf (pod.handle d wh req).1 oneagent.AnnotationReason =
      some pod.NoCodeModulesImageReason) :
    annotationOf req oneagent.AnnotationReason = some pod.NoCodeModulesImageReason := by
  cases hs : secretsPresent wh req
  · rw [handle_secrets_absent d wh req hs, (notInjectedNoConfig_marks req).2] at h
    exact absurd h (by decide)
  · rw [handle_secrets_present d wh req hs] at h
    unfold handleInjection at h
    cases hi : pod.isInjected req
    · rw [hi] at h
      simp only [Bool.false_eq_true, if_false] at h
      have hre := handlePodMutation_reason d wh req
      have key : annotationOf (pod.handlePodMutation d wh req).1 oneagent.AnnotationReason =
          some pod.NoCodeModulesImageReason := by
        cases hm : (pod.handlePodMutation d wh req).2 with
        | some e => rw [hm] at h; exact h
        | none =>
          rw [hm] at h
          simp only at h
          rw [setDynatraceInjected_lookup _ _ (by decide) (by decide)] at h
          exact h
      unfold annotationOf at key ⊢
      rcases hre with hre | hre
      · rw [← hre]; exact key
      · rw [hre] at key; exact absurd key (by decide)
    · rw [hi] at h
      simp only [if_true] at h
      have ha := handlePodReinvocation_annotations d req
      cases hu : (pod.handlePodReinvocation d req).1
      · rw [hu] at h
        simp only [Bool.false_eq_true, if_false] at h
        rw [setDynatraceInjected_lookup _ _ (by decide) (by decide)] at h
        unfold annotationOf at h ⊢
        rw [ha] at h; exact h
      · rw [hu] at h
        simp only [if_true] at h
        unfold annotationOf at h ⊢
        rw [ha] at h; exact h

theorem getTechnology_eq (p : Pod) (dk : DynaKube) :
    oneagent.getTechnology p dk = technologyOf p.annotations dk := by
  unfold oneagent.getTechnology technologyOf
  cases maputils.lookup p.annotations oneagent.AnnotationTechnologies with
  | some t => rfl
  | none =>
    simp only
    by_cases h : dk.ffNodeImagePullTechnology = ""
    · simp [h]
    · simp [h]

theorem TenantUUID_ok (dk : DynaKube) (h : dk.statusTenantUUID ≠ "") :
    dk.TenantUUID = Except.ok dk.statusTenantUUID := by
  unfold DynaKube.TenantUUID
  simp [h]

theorem TenantUUID_error (dk : DynaKube) (h : dk.statusTenantUUID = "") :
    dk.TenantUUID = Except.error (Err.other "tenant UUID not available") := by
  unfold DynaKube.TenantUUID
  simp [h]

theorem addInitArgs_eq (p : Pod) (c : Container) (dk : DynaKube) (path : String) :
    oneagent.addInitArgs p c dk path =
      if tenantResolved dk then
        ({ c with args := c.args ++
            arg.ConvertArgsToStrings (initArgsOf p.annotations dk path) }, none)
      else (c, some (Err.other "tenant UUID not available")) := by
  unfold oneagent.addInitArgs tenantResolved initArgsOf
  rw [getTechnology_eq]
  cases hf : dk.cloudNativeFullstack
  · by_cases ht : technologyOf p.annotations dk = "" <;> simp [ht]
  · by_cases hu : dk.statusTenantUUID = ""
    · simp [TenantUUID_error dk hu, hu]
    · by_cases ht : technologyOf p.annotations dk = "" <;>
        simp [TenantUUID_ok dk hu, hu, ht]

theorem addInitArgs_args_eq (p : Pod) (c : Container) (dk : DynaKube) (path : String) :
    (oneagent.addInitArgs p c dk path).1.args =
      c.args ++ initArgsAppended p.annotations dk path := by
  rw [addInitArgs_eq]
  unfold initArgsAppended
  cases tenantResolved dk <;> simp

theorem mutateInitContainer_volumes (d : Deps) (req : MutationRequest) (path : String) :
    (oneagent.mutateInitContainer d req path).1.base.pod.volumes =
      req.base.pod.volumes ++ [binVolumeOf d req.base] := by
  unfold oneagent.mutateInitContainer binVolumeOf oneagent.addCSIBinVolume
    oneagent.addEmptyDirBinVolume
  dsimp only
  cases oneagent.IsCSIVolume req.base <;> rfl

theorem mutateInitContainer_args (d : Deps) (req : MutationRequest) (path : String) :
    (oneagent.mutateInitContainer d req path).1.installContainer.args =
      req.installContainer.args ++
        (if !oneagent.IsSelfExtractingImage req.base (oneagent.IsCSIVolume req.base)
            && !oneagent.IsCSIVolume req.base
          then arg.ConvertArgsToStrings (downloadArgs d req.base) else []) ++
        initArgsAppended req.base.pod.annotations req.base.dynaKube path := by
  unfold oneagent.mutateInitContainer
  dsimp only
  rw [addInitArgs_args_eq]
  have hann : (if oneagent.IsCSIVolume req.base = true then
      oneagent.addCSIBinVolume d req.base.pod req.base.dynaKube.name
        req.base.dynaKube.ffCSIMaxRetryTimeout
      else oneagent.addEmptyDirBinVolume d req.base.pod).annotations =
      req.base.pod.annotations := by
    split <;> rfl
  rw [hann]
  unfold oneagent.addInitVolumeMounts downloadArgs
  cases hs : oneagent.IsSelfExtractingImage req.base (oneagent.IsCSIVolume req.base) <;>
    cases hc : oneagent.IsCSIVolume req.base <;> simp

theorem mutateInitContainer_command (d : Deps) (req : MutationRequest) (path : String) :
    (oneagent.mutateInitContainer d req path).1.installContainer.command =
      if oneagent.IsSelfExtractingImage req.base (oneagent.IsCSIVolume req.base) then []
      else req.installContainer.command := by
  unfold oneagent.mutateInitContainer
  dsimp only
  rw [addInitArgs_eq]
  unfold oneagent.addInitVolumeMounts
  cases hs : oneagent.IsSelfExtractingImage req.base (oneagent.IsCSIVolume req.base) <;>
    cases hc : oneagent.IsCSIVolume req.base <;>
    cases ht : tenantResolved req.base.dynaKube <;> simp

theorem TenantUUID_error_inv (dk : DynaKube) (e : Err) (h : dk.TenantUUID = Except.error e) :
    dk.statusTenantUUID = "" ∧ e = Err.other "tenant UUID not available" := by
  unfold DynaKube.TenantUUID at h
  by_cases hu : dk.statusTenantUUID = ""
  · rw [if_pos hu] at h
    injection h with h
    exact ⟨hu, h.symm⟩
  · rw [if_neg hu] at h
    cases h

theorem filter_keys_settled (l : StrMap) (k1 k2 : String) :
    (List.filter (fun kv => !(kv.1 == k2)) (List.filter (fun kv => !(kv.1 == k1))
      (List.filter (fun kv => !(kv.1 == k2)) (List.filter (fun kv => !(kv.1 == k1)) l)))) =
    List.filter (fun kv => !(kv.1 == k2)) (List.filter (fun kv => !(kv.1 == k1)) l) := by
  induction l with
  | nil => rfl
  | cons x xs ih =>
    by_cases h1 : x.1 = k1
    · rw [List.filter_cons_of_neg (by simp [h1])]
      exact ih
    · by_cases h2 : x.1 = k2
      · rw [List.filter_cons_of_pos (by simp [h1]), List.filter_cons_of_neg (by simp [h2])]
        exact ih
      · rw [List.filter_cons_of_pos (by simp [h1]), List.filter_cons_of_pos (by simp [h2]),
          List.filter_cons_of_pos (by simp [h1]), List.filter_cons_of_pos (by simp [h2]), ih]

theorem setDynatraceInjected_annotations (r : MutationRequest) :
    ( pod.setDynatraceInjectedAnnotation r).base.pod.annotations =
      some ((AnnotationDynatraceInjected, "true") ::
        List.filter (fun kv => !(kv.1 == AnnotationDynatraceReason))
          (List.filter (fun kv => !(kv.1 == AnnotationDynatraceInjected))
            (r.base.pod.annotations.getD []))) := by
  unfold pod.setDynatraceInjectedAnnotation pod.withPod maputils.insert maputils.delete
  simp only [Option.map_some']
  rw [List.filter_cons_of_pos (by decide)]

/-- Sample evaluations of `oneagent.IsEnabled`: an empty selector enables, a nil
selector disables, match labels and match expressions are evaluated against the
labels of the namespace, the inject annotation overrides the default, and a
selector with an unknown operator leaves the call without a result. -/
theorem oneagent_IsEnabled_samples :
    oneagent.IsEnabled (enabledCase none (some {}) none) = some true ∧
    oneagent.IsEnabled (enabledCase none none none) = some false ∧
    oneagent.IsEnabled (enabledCase none (some { matchLabels := [("inject", "yes")] })
      (some [("team", "a"), ("inject", "yes")])) = some true ∧
    oneagent.IsEnabled (enabledCase none (some { matchLabels := [("inject", "yes")] })
      (some [("team", "a")])) = some false ∧
    oneagent.IsEnabled (enabledCase none
      (some { matchExpressions := [{ key := "team", operator := "NotIn", values := ["a"] }] })
      (some [("team", "a")])) = some false ∧
    oneagent.IsEnabled (enabledCase (some [(oneagent.AnnotationInject, "false")]) (some {})
      none) = some false ∧
    oneagent.IsEnabled (enabledCase none
      (some { matchExpressions := [{ key := "team", operator := "Near", values := [] }] })
      none) = none := by
  decide

/-- Sample evaluations of `oneagent.IsEnabled` on selectors that
`labels.NewRequirement` rejects: a value with a blank, a key with a blank, a value
that starts with a dash, "In" without values, "Exists" with a value and a key
whose domain part has an upper-case letter leave the call without a result; the
same selectors in well-formed spelling are evaluated. -/
theorem oneagent_IsEnabled_rejected_samples :
    oneagent.IsEnabled (enabledCase none
      (some { matchExpressions := [{ key := "team", operator := "NotIn", values := ["a b"] }] })
      (some [("team", "x")])) = none ∧
    oneagent.IsEnabled (enabledCase none
      (some { matchExpressions := [{ key := "team", operator := "NotIn", values := ["a"] }] })
      (some [("team", "x")])) = some true ∧
    oneagent.IsEnabled (enabledCase none (some { matchLabels := [("bad key", "yes")] })
      (some [("bad key", "yes")])) = none ∧
    oneagent.IsEnabled (enabledCase none (some { matchLabels := [("inject", "-yes")] })
      (some [("inject", "-yes")])) = none ∧
    oneagent.IsEnabled (enabledCase none
      (some { matchExpressions := [{ key := "team", operator := "In", values := [] }] })
      (some [("team", "x")])) = none ∧
    oneagent.IsEnabled (enabledCase none
      (some { matchExpressions := [{ key := "team", operator := "Exists", values := ["x"] }] })
      (some [("team", "x")])) = none ∧
    oneagent.IsEnabled (enabledCase none
      (some { matchLabels := [("dynatrace.com/inject", "yes")] })
      (some [("dynatrace.com/inject", "yes")])) = some true ∧
    oneagent.IsEnabled (enabledCase none
      (some { matchLabels := [("Dynatrace.com/inject", "yes")] })
      (some [("Dynatrace.com/inject", "yes")])) = none := by
  decide

/-- Sample evaluations of the label syntax checks. -/
theorem validation_samples :
    validation.IsQualifiedName "" = false ∧
    validation.IsQualifiedName "a/b/c" = false ∧
    validation.IsQualifiedName "/name" = false ∧
    validation.IsQualifiedName "example.com/" = false ∧
    validation.IsQualifiedName "example.com/my-name_1.x" = true ∧
    validation.IsQualifiedName "a..b/name" = false ∧
    validation.IsQualifiedName "name-" = false ∧
    validation.IsQualifiedName
      "0123456789012345678901234567890123456789012345678901234567890123" = false ∧
    validation.IsValidLabelValue "" = true ∧
    validation.IsValidLabelValue "a b" = false ∧
    validation.IsValidLabelValue "a_b.c-d" = true := by
  decide

/-- The model agrees with `TestSetDynatraceInjectedAnnotation` (handle_test.go
376-408): the nil map and the map with the reason key alone end with one entry,
the dynatrace-injected key. -/
theorem setDynatraceInjected_test_cases :
    ( pod.setDynatraceInjectedAnnotation (requestWithAnnotations none)).base.pod.annotations =
      some [(AnnotationDynatraceInjected, "true")] ∧
    ( pod.setDynatraceInjectedAnnotation (requestWithAnnotations
      (some [(AnnotationDynatraceReason, "beep")]))).base.pod.annotations =
      some [(AnnotationDynatraceInjected, "true")] := by
  decide

theorem convertAll_isSome {α β : Type} (f : α → Option β) (l : List α) :
    (metav1.convertAll f l).isSome = l.all (fun a => (f a).isSome) := by
  induction l with
  | nil => rfl
  | cons a rest ih =>
    rw [metav1.convertAll, List.all_cons, ← ih]
    cases f a <;> cases metav1.convertAll f rest <;> rfl

theorem convertAll_all {α β : Type} (f : α → Option β) (P : β → Bool) (Q : α → Bool)
    (h : ∀ a b, f a = some b → P b = Q a) (l : List α) (rs : List β)
    (hl : metav1.convertAll f l = some rs) : rs.all P = l.all Q := by
  induction l generalizing rs with
  | nil =>
    rw [metav1.convertAll] at hl
    cases hl
    rfl
  | cons a rest ih =>
    rw [metav1.convertAll] at hl
    cases hfa : f a with
    | none => rw [hfa] at hl; simp at hl
    | some b =>
      cases hrest : metav1.convertAll f rest with
      | none => rw [hfa, hrest] at hl; simp at hl
      | some bs =>
        rw [hfa, hrest] at hl
        simp only [Option.some.injEq] at hl
        subst hl
        rw [List.all_cons, List.all_cons, h a b hfa, ih bs hrest]

theorem NewRequirement_isSome (key : String) (op : selection.Operator) (vals : List String) :
    (labels.NewRequirement key op vals).isSome =
      (validation.IsQualifiedName key &&
        (match op with
          | selection.Operator.In => !vals.isEmpty
          | selection.Operator.NotIn => !vals.isEmpty
          | selection.Operator.Equals => vals.length == 1
          | selection.Operator.Exists => vals.isEmpty
          | selection.Operator.DoesNotExist => vals.isEmpty) &&
        vals.all validation.IsValidLabelValue) := by
  unfold labels.NewRequirement
  dsimp only
  split
  · rename_i h
    exact h.symm
  · rename_i h
    rw [Bool.not_eq_true] at h
    exact h.symm

theorem NewRequirement_some (key : String) (op : selection.Operator) (vals : List String)
    (r : labels.Requirement) (h : labels.NewRequirement key op vals = some r) :
    r = { key := key, operator := op, strValues := vals } := by
  unfold labels.NewRequirement at h
  dsimp only at h
  split at h
  · exact (Option.some.inj h).symm
  · cases h

theorem labelRequirement_isSome (kv : String × String) :
    (labels.NewRequirement kv.1 selection.Operator.Equals [kv.2]).isSome =
      (validation.IsQualifiedName kv.1 && validation.IsValidLabelValue kv.2) := by
  rw [NewRequirement_isSome]
  simp

theorem labelRequirement_matches (ls : Option StrMap) (kv : String × String)
    (r : labels.Requirement)
    (h : labels.NewRequirement kv.1 selection.Operator.Equals [kv.2] = some r) :
    r.Matches ls = (maputils.lookup ls kv.1 == some kv.2) := by
  rw [NewRequirement_some _ _ _ _ h]
  unfold labels.Requirement.Matches
  dsimp only
  cases maputils.lookup ls kv.1 with
  | none => rfl
  | some v => by_cases hv : v = kv.2 <;> simp [hv]

theorem convertExpression_isSome (e : metav1.LabelSelectorRequirement) :
    (metav1.convertExpression e).isSome = expressionValid e := by
  unfold metav1.convertExpression expressionValid
  rw [Bool.eq_iff_iff]
  by_cases h1 : e.operator = "In"
  · simp [h1, NewRequirement_isSome]; tauto
  · by_cases h2 : e.operator = "NotIn"
    · simp [h2, NewRequirement_isSome]; tauto
    · by_cases h3 : e.operator = "Exists"
      · simp [h3, NewRequirement_isSome]; tauto
      · by_cases h4 : e.operator = "DoesNotExist"
        · simp [h4, NewRequirement_isSome]; tauto
        · simp [h1, h2, h3, h4]

theorem requirement_matches_in (ls : Option StrMap) (key : String) (vals : List String) :
    ({ key := key, operator := selection.Operator.In, strValues := vals } :
      labels.Requirement).Matches ls =
      (match maputils.lookup ls key with
        | some v => vals.contains v
        | none => false) := by
  unfold labels.Requirement.Matches
  dsimp only
  cases maputils.lookup ls key <;> rfl

theorem requirement_matches_notin (ls : Option StrMap) (key : String) (vals : List String) :
    ({ key := key, operator := selection.Operator.NotIn, strValues := vals } :
      labels.Requirement).Matches ls =
      (match maputils.lookup ls key with
        | some v => !(vals.contains v)
        | none => true) := by
  unfold labels.Requirement.Matches
  dsimp only
  cases maputils.lookup ls key <;> rfl

theorem convertExpression_matches (ls : Option StrMap) (e : metav1.LabelSelectorRequirement)
    (r : labels.Requirement) (h : metav1.convertExpression e = some r) :
    r.Matches ls = expressionHolds e ls := by
  unfold metav1.convertExpression at h
  unfold expressionHolds
  by_cases h1 : e.operator = "In"
  · rw [if_pos h1] at h
    rw [NewRequirement_some _ _ _ _ h, if_pos h1, requirement_matches_in]
  · rw [if_neg h1] at h
    by_cases h2 : e.operator = "NotIn"
    · rw [if_pos h2] at h
      rw [NewRequirement_some _ _ _ _ h, if_neg h1, if_pos h2, requirement_matches_notin]
    · rw [if_neg h2] at h
      by_cases h3 : e.operator = "Exists"
      · rw [if_pos h3] at h
        rw [NewRequirement_some _ _ _ _ h, if_neg h1, if_neg h2, if_pos h3]
        rfl
      · rw [if_neg h3] at h
        by_cases h4 : e.operator = "DoesNotExist"
        · rw [if_pos h4] at h
          rw [NewRequirement_some _ _ _ _ h, if_neg h1, if_neg h2, if_neg h3, if_pos h4]
          rfl
        · rw [if_neg h4] at h
          cases h

theorem LabelSelectorAsSelector_isSome (ps : metav1.LabelSelector) :
    (metav1.LabelSelectorAsSelector ps).isSome = selectorValid ps := by
  have h1 := convertAll_isSome
    (fun kv : String × String => labels.NewRequirement kv.1 selection.Operator.Equals [kv.2])
    ps.matchLabels
  have h2 := convertAll_isSome metav1.convertExpression ps.matchExpressions
  simp only [labelRequirement_isSome, convertExpression_isSome] at h1 h2
  unfold metav1.LabelSelectorAsSelector selectorValid
  rw [← h1, ← h2]
  cases metav1.convertAll (fun kv : String × String =>
      labels.NewRequirement kv.1 selection.Operator.Equals [kv.2]) ps.matchLabels <;>
    cases metav1.convertAll metav1.convertExpression ps.matchExpressions <;> rfl

theorem LabelSelectorAsSelector_matches (ps : metav1.LabelSelector) (ls : Option StrMap)
    (selector : List labels.Requirement)
    (h : metav1.LabelSelectorAsSelector ps = some selector) :
    labels.Matches selector ls = selectorHolds ps ls := by
  unfold metav1.LabelSelectorAsSelector at h
  cases h1 : metav1.convertAll (fun kv : String × String =>
      labels.NewRequirement kv.1 selection.Operator.Equals [kv.2]) ps.matchLabels with
  | none => rw [h1] at h; simp at h
  | some a =>
    cases h2 : metav1.convertAll metav1.convertExpression ps.matchExpressions with
    | none => rw [h1, h2] at h; simp at h
    | some b =>
      rw [h1, h2] at h
      simp only [Option.some.injEq] at h
      subst h
      unfold labels.Matches selectorHolds
      rw [List.all_append]
      rw [convertAll_all _ (fun r => r.Matches ls)
        (fun kv : String × String => maputils.lookup ls kv.1 == some kv.2)
        (fun kv r hr => labelRequirement_matches ls kv r hr) _ _ h1]
      rw [convertAll_all _ (fun r => r.Matches ls) (fun e => expressionHolds e ls)
        (fun e r hr => convertExpression_matches ls e r hr) _ _ h2]

/-- The result of `oneagent.IsEnabled` by cases on the namespace selector: false on
the nil selector, the per-pod opt-in on a selector without requirements, the
evaluation of the requirements and the opt-in on a well-formed selector, and no
result on a selector with requirements that is not well-formed. -/
theorem oneagent_IsEnabled_cases (request : BaseRequest) :
    oneagent.IsEnabled request =
      match request.dynaKube.namespaceSelector with
      | none => some false
      | some ps =>
        if metav1.LabelSelector.Size (some ps) = 0 then some (podOptIn request)
        else if selectorValid ps then
          some (selectorHolds ps request.nspace.labels && podOptIn request)
        else none := by
  unfold oneagent.IsEnabled oneagent.matchesNamespaceSelector podOptIn
  cases hsel : request.dynaKube.namespaceSelector with
  | none => simp [metav1.LabelSelector.Size]
  | some ps =>
    by_cases hz : metav1.LabelSelector.Size (some ps) = 0
    · simp [hz]
    · have hpos : metav1.LabelSelector.Size (some ps) > 0 := Nat.pos_of_ne_zero hz
      have hv := LabelSelectorAsSelector_isSome ps
      simp only [hpos, if_true, hz, if_false]
      cases hconv : metav1.LabelSelectorAsSelector ps with
      | none =>
        rw [hconv] at hv
        simp [← hv]
      | some selector =>
        rw [hconv] at hv
        have hm := LabelSelectorAsSelector_matches ps request.nspace.labels selector hconv
        simp [← hv, hm]

/-- The call of `oneagent.IsEnabled` does not return exactly on a selector with
requirements that is not well-formed: the conversion error is discarded and
`Matches` is called on the nil selector (mutator.go 48-50). -/
theorem oneagent_IsEnabled_none_iff (request : BaseRequest) :
    oneagent.IsEnabled request = none ↔
      ∃ ps, request.dynaKube.namespaceSelector = some ps ∧
        metav1.LabelSelector.Size (some ps) > 0 ∧ selectorValid ps = false := by
  rw [oneagent_IsEnabled_cases]
  cases hsel : request.dynaKube.namespaceSelector with
  | none => simp
  | some ps =>
    by_cases hz : metav1.LabelSelector.Size (some ps) = 0
    · simp [hz]
    · have hpos : metav1.LabelSelector.Size (some ps) > 0 := Nat.pos_of_ne_zero hz
      by_cases hv : selectorValid ps = true
      · simp only [hz, hv, if_false, if_true]
        constructor
        · intro h
          cases h
        · rintro ⟨ps2, hps, _, hv2⟩
          cases hps
          rw [hv] at hv2
          cases hv2
      · rw [Bool.not_eq_true] at hv
        dsimp only
        rw [if_neg hz, hv]
        exact ⟨fun _ => ⟨ps, rfl, hpos, hv⟩, fun _ => rfl⟩

/-! ## The claims -/

/-- C1: `pod.IsEnabled` returns true exactly when the node-image-pull flag is set,
`oneagent.IsEnabled` returns true and the effective volume type is "ephemeral"; an
override "ephemeral" makes the result independent of CSI availability, an override
"csi" makes it false, and without an override it is false when CSI is available. -/
theorem IsEnabled_iff (req : MutationRequest) :
    (pod.IsEnabled req = some true ↔
      (req.base.dynaKube.ffNodeImagePull = true ∧ oneagent.IsEnabled req.base = some true ∧
        effectiveVolumeType req = "ephemeral")) ∧
    (maputils.lookup req.base.pod.annotations oneagent.AnnotationVolumeType = some "ephemeral" →
      ∀ b, pod.IsEnabled (withCSIAvailable req b) = pod.IsEnabled req) ∧
    (maputils.lookup req.base.pod.annotations oneagent.AnnotationVolumeType = some "csi" →
      ∀ r, pod.IsEnabled req = some r → r = false) ∧
    (maputils.lookup req.base.pod.annotations oneagent.AnnotationVolumeType = none →
      req.base.dynaKube.csiAvailable = true → ∀ r, pod.IsEnabled req = some r → r = false) := by
  refine ⟨?_, ?_, ?_, ?_⟩
  · rw [pod_IsEnabled_eq]
    cases h : oneagent.IsEnabled req.base with
    | none => simp
    | some oa => simp [and_assoc]
  · intro h b
    rw [pod_IsEnabled_eq, pod_IsEnabled_eq, oneagent_IsEnabled_withCSI]
    have e1 : effectiveVolumeType (withCSIAvailable req b) = "ephemeral" := by
      unfold effectiveVolumeType
      show (match maputils.lookup req.base.pod.annotations oneagent.AnnotationVolumeType with
        | some v => _ | none => _) = _
      rw [h]; simp
    have e2 : effectiveVolumeType req = "ephemeral" := by
      unfold effectiveVolumeType; rw [h]; simp
    rw [e1, e2]; rfl
  · intro h r hr
    rw [pod_IsEnabled_eq] at hr
    have e2 : effectiveVolumeType req = "csi" := by
      unfold effectiveVolumeType; rw [h]; simp
    rw [e2] at hr
    cases h2 : oneagent.IsEnabled req.base with
    | none => rw [h2] at hr; simp at hr
    | some oa => rw [h2] at hr; simp at hr; exact hr
  · intro h hc r hr
    rw [pod_IsEnabled_eq] at hr
    have e2 : effectiveVolumeType req = "csi" := by
      unfold effectiveVolumeType; rw [h, hc]; rfl
    rw [e2] at hr
    cases h2 : oneagent.IsEnabled req.base with
    | none => rw [h2] at hr; simp at hr
    | some oa => rw [h2] at hr; simp at hr; exact hr

/-- C2: on a pod without the install container and without an agent reason
annotation that has a user container without the marker, when the required
secrets are present and every stage of the full mutation path succeeds, `handle`
returns nil, the agent injected annotation is "true", the agent reason annotation
is absent, the dynatrace-injected annotation is "true", and the init-container
list is the previous list followed by the install container. -/
theorem handle_happy_path (d : Deps) (wh : webhook) (req : MutationRequest)
    (hnot : pod.isInjected req = false)
    (hreason : annotationOf req oneagent.AnnotationReason = none)
    (hnew : ∃ c ∈ req.base.pod.containers, oneagent.containerIsInjected c = false)
    (hsecrets : secretsPresent wh req = true)
    (htenant : tenantResolved req.base.dynaKube = true)
    (hstages : firstStageError d wh req = none) :
    (pod.handle d wh req).2 = none ∧
    annotationOf (pod.handle d wh req).1 oneagent.AnnotationInjected = some "true" ∧
    annotationOf (pod.handle d wh req).1 oneagent.AnnotationReason = none ∧
    annotationOf (pod.handle d wh req).1 AnnotationDynatraceInjected = some "true" ∧
    (pod.handle d wh req).1.installContainer.name = InstallContainerName ∧
    (pod.handle d wh req).1.base.pod.initContainers =
      req.base.pod.initContainers ++ [(pod.handle d wh req).1.installContainer] := by
  have hok : (pod.handlePodMutation d wh req).2 = none := by
    rw [handlePodMutation_error]; exact hstages
  have hm := handlePodMutation_ok d wh req hok
  have hup := Mutate_updated_of_new d wh req htenant hnew
  have hh : pod.handle d wh req =
      ( pod.setDynatraceInjectedAnnotation (pod.handlePodMutation d wh req).1, none) := by
    rw [handle_secrets_present d wh req hsecrets]
    unfold handleInjection
    rw [hnot]
    simp only [Bool.false_eq_true, if_false, hok]
  rw [hh]
  refine ⟨rfl, ?_, ?_, (setDynatraceInjected_marks _).1, hm.2.1, hm.1⟩
  · rw [setDynatraceInjected_lookup _ _ (by decide) (by decide)]
    exact hm.2.2.2.1
  · rw [setDynatraceInjected_lookup _ _ (by decide) (by decide)]
    unfold annotationOf
    rw [hm.2.2.2.2 _ (by decide) (by decide) (by decide) (by decide), afterOneAgent_reason]
    unfold updatedByMutate at hup
    rw [hup, afterContainerAttributes_base]
    exact hreason

/-- The hypotheses of C2 hold on the sample request, and so does its conclusion. -/
theorem handle_happy_path_witness :
    (pod.handle sampleDeps sampleWebhook sampleRequest).2 = none ∧
    annotationOf (pod.handle sampleDeps sampleWebhook sampleRequest).1
      oneagent.AnnotationInjected = some "true" ∧
    annotationOf (pod.handle sampleDeps sampleWebhook sampleRequest).1
      oneagent.AnnotationReason = none ∧
    annotationOf (pod.handle sampleDeps sampleWebhook sampleRequest).1
      AnnotationDynatraceInjected = some "true" ∧
    (pod.handle sampleDeps sampleWebhook sampleRequest).1.installContainer.name =
      InstallContainerName ∧
    (pod.handle sampleDeps sampleWebhook sampleRequest).1.base.pod.initContainers =
      sampleRequest.base.pod.initContainers ++
        [(pod.handle sampleDeps sampleWebhook sampleRequest).1.installContainer] :=
  handle_happy_path sampleDeps sampleWebhook sampleRequest (by decide) (by decide)
    ⟨{ name := "container", image := "alpine" }, by decide, by decide⟩ (by decide) (by decide)
    (by decide)

/-- C3: when replication of the config secret pair, or of the certificate secret
pair when a certificate bundle is required, reports NotFound, `handle` returns
nil, sets the agent injected annotation to "false" and the agent reason
annotation to the no-bootstrapper-config reason, and changes nothing else:
containers, init containers, volumes and every other annotation are as before. -/
theorem handle_source_not_found (d : Deps) (wh : webhook) (req : MutationRequest)
    (h : k8serrors.IsNotFound (configSecretError wh req) = true ∨
      (certsNeeded req.base.dynaKube = true ∧
        k8serrors.IsNotFound (certsSecretError wh req) = true)) :
    (pod.handle d wh req).2 = none ∧
    annotationOf (pod.handle d wh req).1 oneagent.AnnotationInjected = some "false" ∧
    annotationOf (pod.handle d wh req).1 oneagent.AnnotationReason =
      some pod.NoBootstrapperConfigReason ∧
    (pod.handle d wh req).1.base.pod.containers = req.base.pod.containers ∧
    (pod.handle d wh req).1.base.pod.initContainers = req.base.pod.initContainers ∧
    (pod.handle d wh req).1.base.pod.volumes = req.base.pod.volumes ∧
    (∀ k, k ≠ oneagent.AnnotationInjected → k ≠ oneagent.AnnotationReason →
      annotationOf (pod.handle d wh req).1 k = annotationOf req k) := by
  have hs : secretsPresent wh req = false := by
    rcases h with h | ⟨hc, h⟩
    · obtain ⟨e, he⟩ := isNotFound_some _ h
      exact secretsPresent_false_of_error wh req e (Or.inl he)
    · obtain ⟨e, he⟩ := isNotFound_some _ h
      exact secretsPresent_false_of_error wh req e (Or.inr ⟨hc, he⟩)
  rw [handle_secrets_absent d wh req hs]
  exact ⟨rfl, (notInjectedNoConfig_marks req).1, (notInjectedNoConfig_marks req).2, rfl, rfl, rfl,
    fun k k1 k2 => notInjectedNoConfig_lookup req k k1 k2⟩

/-- The hypothesis of C3 holds on the sample request in a cluster without the
source secret, and so does its conclusion. -/
theorem handle_source_not_found_witness :
    (pod.handle sampleDeps sampleWebhookNoSource sampleRequest).2 = none ∧
    annotationOf (pod.handle sampleDeps sampleWebhookNoSource sampleRequest).1
      oneagent.AnnotationInjected = some "false" ∧
    annotationOf (pod.handle sampleDeps sampleWebhookNoSource sampleRequest).1
      oneagent.AnnotationReason = some pod.NoBootstrapperConfigReason :=
  have h := handle_source_not_found sampleDeps sampleWebhookNoSource sampleRequest
    (Or.inl (by decide))
  ⟨h.1, h.2.1, h.2.2.1⟩

/-- C4, as the claim states it, fails: with the source secret absent `handle`
returns nil and the dynatrace-injected annotation is not set; on a reinvocation
that mutates a container `handle` returns nil and leaves a dynatrace-reason
annotation in place. -/
theorem handle_finalization_counterexample :
    ((pod.handle sampleDeps sampleWebhookNoSource sampleRequest).2 = none ∧
      annotationOf (pod.handle sampleDeps sampleWebhookNoSource sampleRequest).1
        AnnotationDynatraceInjected = none) ∧
    ((pod.handle sampleDeps sampleWebhook sampleRequestReinvokedReason).2 = none ∧
      (pod.handlePodReinvocation sampleDeps sampleRequestReinvokedReason).1 = true ∧
      annotationOf (pod.handle sampleDeps sampleWebhook sampleRequestReinvokedReason).1
        AnnotationDynatraceReason = some "beep") := by
  decide

/-- C4 (amended): when `handle` returns nil after the full mutation or after a
reinvocation that changed nothing, the pod carries dynatrace-injected = "true"
and no dynatrace-reason key; when a required secret is absent or a reinvocation
mutated a container, `handle` returns before the finalization and both keys are
as they were. -/
theorem handle_finalization (d : Deps) (wh : webhook) (req : MutationRequest)
    (hok : (pod.handle d wh req).2 = none) :
    (secretsPresent wh req = true →
      (pod.isInjected req = false ∨ (pod.handlePodReinvocation d req).1 = false) →
      annotationOf (pod.handle d wh req).1 AnnotationDynatraceInjected = some "true" ∧
      annotationOf (pod.handle d wh req).1 AnnotationDynatraceReason = none) ∧
    ((secretsPresent wh req = false ∨
        (pod.isInjected req = true ∧ (pod.handlePodReinvocation d req).1 = true)) →
      annotationOf (pod.handle d wh req).1 AnnotationDynatraceInjected =
        annotationOf req AnnotationDynatraceInjected ∧
      annotationOf (pod.handle d wh req).1 AnnotationDynatraceReason =
        annotationOf req AnnotationDynatraceReason) := by
  constructor
  · intro hs hbranch
    rw [handle_secrets_present d wh req hs] at hok ⊢
    unfold handleInjection at hok ⊢
    cases hi : pod.isInjected req
    · rw [hi] at hok
      simp only [Bool.false_eq_true, if_false] at hok ⊢
      cases hm : (pod.handlePodMutation d wh req).2 with
      | some e => rw [hm] at hok; simp at hok
      | none => exact setDynatraceInjected_marks _
    · rcases hbranch with hb | hb
      · rw [hi] at hb; simp at hb
      · simp only [if_true, hb, Bool.false_eq_true, if_false]
        exact setDynatraceInjected_marks _
  · intro hbranch
    by_cases hs : secretsPresent wh req = false
    · rw [handle_secrets_absent d wh req hs]
      exact ⟨notInjectedNoConfig_lookup req _ (by decide) (by decide),
        notInjectedNoConfig_lookup req _ (by decide) (by decide)⟩
    · rcases hbranch with hb | ⟨hi, hu⟩
      · exact absurd hb hs
      · rw [handle_secrets_present d wh req (by simpa using hs)]
        unfold handleInjection
        simp only [hi, hu, if_true]
        unfold annotationOf
        rw [handlePodReinvocation_annotations]
        exact ⟨rfl, rfl⟩

/-- The hypothesis of C4 (amended) holds on the sample request, which takes the
full mutation, and the finalization is there. -/
theorem handle_finalization_witness :
    annotationOf (pod.handle sampleDeps sampleWebhook sampleRequest).1
      AnnotationDynatraceInjected = some "true" ∧
    annotationOf (pod.handle sampleDeps sampleWebhook sampleRequest).1
      AnnotationDynatraceReason = none :=
  (handle_finalization sampleDeps sampleWebhook sampleRequest (by decide)).1 (by decide)
    (Or.inl (by decide))

/-- C5, as the claim states it, fails: replication cut short by the cancellation
of the context is an error other than NotFound, and `handle` returns nil; a read
of the target secret that fails with an error other than NotFound is taken as
"present", and `handle` returns nil after the finalization. -/
theorem handle_replication_error_counterexample :
    (configSecretError sampleWebhookCanceled sampleRequest = some Err.canceled ∧
      k8serrors.IsNotFound (some Err.canceled) = false ∧
      (pod.handle sampleDeps sampleWebhookCanceled sampleRequest).2 = none) ∧
    (sampleWebhookReadFails.apiReaderGet sampleRequest.context pod.BootstrapperInitSecretName
        sampleRequest.base.nspace.name = some (Err.other "connection refused") ∧
      (pod.handle sampleDeps sampleWebhookReadFails sampleRequest).2 = none ∧
      annotationOf (pod.handle sampleDeps sampleWebhookReadFails sampleRequest).1
        AnnotationDynatraceInjected = some "true") := by
  decide

/-- C5 (amended): when replication of a required secret pair fails with an error
other than NotFound, cancellation included, `handle` returns nil, marks the pod
agent injected = "false" with the no-bootstrapper-config reason and does no
finalization (both dynatrace keys are as they were); an error other than NotFound
from reading the target secret is dropped by `replicateSecret`. -/
theorem handle_replication_error (d : Deps) (wh : webhook) (req : MutationRequest) (e : Err)
    (h : configSecretError wh req = some e ∨
      (certsNeeded req.base.dynaKube = true ∧ certsSecretError wh req = some e))
    (_hother : k8serrors.IsNotFound (some e) = false) :
    ((pod.handle d wh req).2 = none ∧
      annotationOf (pod.handle d wh req).1 oneagent.AnnotationInjected = some "false" ∧
      annotationOf (pod.handle d wh req).1 oneagent.AnnotationReason =
        some pod.NoBootstrapperConfigReason ∧
      annotationOf (pod.handle d wh req).1 AnnotationDynatraceInjected =
        annotationOf req AnnotationDynatraceInjected ∧
      annotationOf (pod.handle d wh req).1 AnnotationDynatraceReason =
        annotationOf req AnnotationDynatraceReason) ∧
    (∀ (source target : String) (e2 : Err),
      wh.apiReaderGet req.context target req.base.nspace.name = some e2 →
      k8serrors.IsNotFound (some e2) = false →
      pod.replicateSecret wh req source target = none) := by
  constructor
  · rw [handle_secrets_absent d wh req (secretsPresent_false_of_error wh req e h)]
    exact ⟨rfl, (notInjectedNoConfig_marks req).1, (notInjectedNoConfig_marks req).2,
      notInjectedNoConfig_lookup req _ (by decide) (by decide),
      notInjectedNoConfig_lookup req _ (by decide) (by decide)⟩
  · intro source target e2 hget hnf
    unfold pod.replicateSecret
    simp only [hget, hnf, Bool.false_eq_true, if_false]

/-- The hypotheses of C5 (amended) hold on the sample request when replication is
cancelled, and `handle` returns nil there. -/
theorem handle_replication_error_witness :
    (pod.handle sampleDeps sampleWebhookCanceled sampleRequest).2 = none ∧
    annotationOf (pod.handle sampleDeps sampleWebhookCanceled sampleRequest).1
      oneagent.AnnotationReason = some pod.NoBootstrapperConfigReason :=
  have h := (handle_replication_error sampleDeps sampleWebhookCanceled sampleRequest
    Err.canceled (Or.inl (by decide)) (by decide)).1
  ⟨h.1, h.2.2.1⟩

/-- C6: on a pod without the install container, with the required secrets present,
when a stage of the full mutation path (container attributes, pod attributes,
metadata enrichment) returns an error, `handle` returns that error, the
init-container list is as before (the install container is not appended), the
agent injected annotation is as before or "false" (it is not set to "true"), and
the dynatrace-injected and dynatrace-reason annotations are as before. -/
theorem handle_stage_error (d : Deps) (wh : webhook) (req : MutationRequest) (e : Err)
    (hnot : pod.isInjected req = false)
    (hsecrets : secretsPresent wh req = true)
    (hfail : firstStageError d wh req = some e) :
    (pod.handle d wh req).2 = some e ∧
    (pod.handle d wh req).1.base.pod.initContainers = req.base.pod.initContainers ∧
    (annotationOf (pod.handle d wh req).1 oneagent.AnnotationInjected =
        annotationOf req oneagent.AnnotationInjected ∨
      annotationOf (pod.handle d wh req).1 oneagent.AnnotationInjected = some "false") ∧
    annotationOf (pod.handle d wh req).1 AnnotationDynatraceInjected =
      annotationOf req AnnotationDynatraceInjected ∧
    annotationOf (pod.handle d wh req).1 AnnotationDynatraceReason =
      annotationOf req AnnotationDynatraceReason := by
  have herr : (pod.handlePodMutation d wh req).2 = some e := by
    rw [handlePodMutation_error]; exact hfail
  have hm := handlePodMutation_err d wh req e herr
  have hh : pod.handle d wh req = ((pod.handlePodMutation d wh req).1, some e) := by
    rw [handle_secrets_present d wh req hsecrets]
    unfold handleInjection
    rw [hnot]
    simp only [Bool.false_eq_true, if_false, herr]
  rw [hh]
  exact ⟨rfl, hm.1, hm.2.1,
    hm.2.2 _ (by decide) (by decide) (by decide) (by decide) (by decide),
    hm.2.2 _ (by decide) (by decide) (by decide) (by decide) (by decide)⟩

/-- The hypotheses of C6 hold on the sample request when the serialization of the pod
attributes fails, and `handle` returns that error there. -/
theorem handle_stage_error_witness :
    (pod.handle sampleDepsPodAttributesFail sampleWebhook sampleRequest).2 =
      some (Err.other "pod attributes") ∧
    (pod.handle sampleDepsPodAttributesFail sampleWebhook sampleRequest).1.base.pod.initContainers
      = sampleRequest.base.pod.initContainers :=
  have h := handle_stage_error sampleDepsPodAttributesFail sampleWebhook sampleRequest
    (Err.other "pod attributes") (by decide) (by decide) (by decide)
  ⟨h.1, h.2.1⟩

/-- C7: on a pod without the install container whose user containers all lack the
marker, two runs of `handle` in succession, with the secrets present in both and
every stage of the first succeeding, both return nil; afterwards every user
container carries the marker exactly once and exactly one init container carries
the install name; the second run keeps the number of init containers and leaves
the user containers as the first run left them.  The variables that the agent
helpers append are taken not to carry the marker name. -/
theorem handle_twice (d : Deps) (wh1 wh2 : webhook) (req : MutationRequest)
    (hnot : pod.isInjected req = false)
    (hfresh : ∀ c ∈ req.base.pod.containers, oneagent.containerIsInjected c = false)
    (hsecrets1 : secretsPresent wh1 req = true)
    (htenant : tenantResolved req.base.dynaKube = true)
    (hstages : firstStageError d wh1 req = none)
    (hsecrets2 : secretsPresent wh2 (pod.handle d wh1 req).1 = true)
    (hfree : ∀ e ∈ agentEnvs d req.base.dynaKube req.base.nspace (installPathOf req.base),
      e.name ≠ oneagent.isInjectedEnv) :
    (pod.handle d wh1 req).2 = none ∧
    (pod.handle d wh2 (pod.handle d wh1 req).1).2 = none ∧
    (∀ c ∈ (pod.handle d wh2 (pod.handle d wh1 req).1).1.base.pod.containers,
      markerCount c = 1) ∧
    installCount (pod.handle d wh2 (pod.handle d wh1 req).1).1.base.pod = 1 ∧
    (pod.handle d wh2 (pod.handle d wh1 req).1).1.base.pod.initContainers.length =
      (pod.handle d wh1 req).1.base.pod.initContainers.length ∧
    (pod.handle d wh2 (pod.handle d wh1 req).1).1.base.pod.containers =
      (pod.handle d wh1 req).1.base.pod.containers := by
  -- the first run
  have hok : (pod.handlePodMutation d wh1 req).2 = none := by
    rw [handlePodMutation_error]; exact hstages
  have hm := handlePodMutation_ok d wh1 req hok
  have hh : pod.handle d wh1 req =
      ( pod.setDynatraceInjectedAnnotation (pod.handlePodMutation d wh1 req).1, none) := by
    rw [handle_secrets_present d wh1 req hsecrets1]
    unfold handleInjection
    rw [hnot]
    simp only [Bool.false_eq_true, if_false, hok]
  have hl := (not_injected_iff req).1 hnot
  have hb := afterContainerAttributes_base d wh1 req
  have hcont1 : (pod.handle d wh1 req).1.base.pod.containers =
      req.base.pod.containers.map (fun c =>
        if oneagent.containerIsInjected c then c
        else oneagent.addOneAgentToContainer d req.base.dynaKube c req.base.nspace
          (installPathOf req.base)) := by
    rw [hh]
    show (pod.handlePodMutation d wh1 req).1.base.pod.containers = _
    rw [hm.2.2.1, (Mutate_resolved d _ (by rw [hb]; exact htenant)).2, hb]
  have hinit1 : (pod.handle d wh1 req).1.base.pod.initContainers =
      req.base.pod.initContainers ++ [(pod.handlePodMutation d wh1 req).1.installContainer] := by
    rw [hh]; exact hm.1
  have hall : ∀ c ∈ (pod.handle d wh1 req).1.base.pod.containers,
      oneagent.containerIsInjected c = true ∧ markerCount c = 1 := by
    intro c hc
    rw [hcont1, List.mem_map] at hc
    obtain ⟨c0, hc0, rfl⟩ := hc
    have hi := hfresh c0 hc0
    simp only [hi, Bool.false_eq_true, if_false]
    exact ⟨containerIsInjected_addOneAgent _ _ _ _ _,
      markerCount_addOneAgent d _ c0 _ _ hi hfree⟩
  -- the second run
  have hre := handlePodReinvocation_settled d (pod.handle d wh1 req).1 _ _ hinit1 hl hm.2.1
    (fun c hc => (hall c hc).1)
  obtain ⟨hre1, hre2, c2, hc2, hre3⟩ := hre
  have hinj : pod.isInjected (pod.handle d wh1 req).1 = true := by
    unfold pod.isInjected container.FindInitContainerInPodSpec
    rw [hinit1, find_append_install _ _ hl hm.2.1]
    rfl
  have hh2 : pod.handle d wh2 (pod.handle d wh1 req).1 =
      ( pod.setDynatraceInjectedAnnotation
        (pod.handlePodReinvocation d (pod.handle d wh1 req).1).2, none) := by
    rw [handle_secrets_present d wh2 _ hsecrets2]
    unfold handleInjection
    rw [hinj, hre1]
    simp only [if_true, Bool.false_eq_true, if_false]
  refine ⟨by rw [hh], by rw [hh2], ?_, ?_, ?_, ?_⟩
  · intro c hc
    rw [hh2] at hc
    exact (hall c (by rw [← hre2]; exact hc)).2
  · rw [hh2]
    exact installCount_append _ _ c2 hre3 hl hc2
  · rw [hh2]
    show (pod.handlePodReinvocation d (pod.handle d wh1 req).1).2.base.pod.initContainers.length = _
    rw [hre3, hinit1, List.length_append, List.length_append]
    rfl
  · rw [hh2]
    exact hre2

/-- The hypotheses of C7 hold on the sample request, and so does its conclusion. -/
theorem handle_twice_witness :
    (pod.handle sampleDeps sampleWebhook sampleRequest).2 = none ∧
    (pod.handle sampleDeps sampleWebhook
      (pod.handle sampleDeps sampleWebhook sampleRequest).1).2 = none ∧
    (∀ c ∈ (pod.handle sampleDeps sampleWebhook
        (pod.handle sampleDeps sampleWebhook sampleRequest).1).1.base.pod.containers,
      markerCount c = 1) ∧
    installCount (pod.handle sampleDeps sampleWebhook
      (pod.handle sampleDeps sampleWebhook sampleRequest).1).1.base.pod = 1 :=
  have h := handle_twice sampleDeps sampleWebhook sampleWebhook sampleRequest (by decide)
    (by decide) (by decide) (by decide) (by decide) (by decide) (by decide)
  ⟨h.1, h.2.1, h.2.2.1, h.2.2.2.1⟩

/-- C8: `Mutator.Reinvoke` returns true exactly when a user container lacks the
marker; it keeps the number and order of the user containers, leaves a container
that carries the marker as it was, and gives a container that lacked it its
previous variables followed by the agent variables and, last, the marker, and
its previous mounts followed by the agent mounts, with its other fields as
before; annotations, init containers and volumes of the pod are as before. -/
theorem Reinvoke_user_containers (d : Deps) (request : ReinvocationRequest) :
    ((oneagent.Mutator.Reinvoke d request).1 = true ↔
      ∃ c ∈ request.base.pod.containers, oneagent.containerIsInjected c = false) ∧
    (oneagent.Mutator.Reinvoke d request).2.base.pod.containers.length =
      request.base.pod.containers.length ∧
    (∀ (i : Nat) (c : Container), request.base.pod.containers[i]? = some c →
      (oneagent.containerIsInjected c = true →
        (oneagent.Mutator.Reinvoke d request).2.base.pod.containers[i]? = some c) ∧
      (oneagent.containerIsInjected c = false →
        ∃ c2, (oneagent.Mutator.Reinvoke d request).2.base.pod.containers[i]? = some c2 ∧
          c2.env = c.env ++ agentEnvs d request.base.dynaKube request.base.nspace
            (installPathOf request.base) ++ [markerEnv] ∧
          c2.env.getLast? = some markerEnv ∧
          oneagent.containerIsInjected c2 = true ∧
          c2.volumeMounts = c.volumeMounts ++ d.agentVolumeMounts (installPathOf request.base) ∧
          c2.name = c.name ∧ c2.image = c.image ∧ c2.command = c.command ∧ c2.args = c.args)) ∧
    (oneagent.Mutator.Reinvoke d request).2.base.pod.annotations = request.base.pod.annotations ∧
    (oneagent.Mutator.Reinvoke d request).2.base.pod.initContainers = request.base.pod.initContainers ∧
    (oneagent.Mutator.Reinvoke d request).2.base.pod.volumes = request.base.pod.volumes := by
  refine ⟨?_, ?_, ?_, rfl, rfl, rfl⟩
  · have h : (oneagent.Mutator.Reinvoke d request).1 =
        request.base.pod.containers.any (fun c => !oneagent.containerIsInjected c) :=
      mutateUserContainers_updated d request.base (installPathOf request.base)
    rw [h, List.any_eq_true]
    constructor
    · rintro ⟨c, hc, hi⟩
      exact ⟨c, hc, by simpa using hi⟩
    · rintro ⟨c, hc, hi⟩
      exact ⟨c, hc, by simp [hi]⟩
  · rw [Reinvoke_containers, List.length_map]
  · intro i c hc
    rw [Reinvoke_containers, List.getElem?_map, hc]
    constructor
    · intro hi
      simp only [Option.map_some', hi, if_true]
    · intro hi
      refine ⟨oneagent.addOneAgentToContainer d request.base.dynaKube c request.base.nspace
        (installPathOf request.base), ?_, ?_, ?_, ?_, ?_, ?_, ?_, ?_, ?_⟩
      · simp only [Option.map_some', hi, Bool.false_eq_true, if_false]
      · rw [addOneAgentToContainer_eq]
      · rw [addOneAgentToContainer_eq]
        simp
      · exact containerIsInjected_addOneAgent _ _ _ _ _
      · rw [addOneAgentToContainer_eq]
      · rw [addOneAgentToContainer_eq]
      · rw [addOneAgentToContainer_eq]
      · rw [addOneAgentToContainer_eq]
      · rw [addOneAgentToContainer_eq]

/-- C9 fails on the code: on a pod whose only user container carries the marker
already, with the secrets present and every stage succeeding, the user-container
pass mutates nothing and `handle` returns nil, but the pod ends with the agent
injected annotation "true" next to the no-mutation-needed reason, and the install
container is appended: `handlePodMutation` does not return after
`SetNotInjectedAnnotations` (handle.go 88-90) and runs on to
`SetInjectedAnnotation` (handle.go 104). -/
theorem handle_no_mutation_needed_bug :
    pod.isInjected sampleRequestMarked = false ∧
    secretsPresent sampleWebhook sampleRequestMarked = true ∧
    firstStageError sampleDeps sampleWebhook sampleRequestMarked = none ∧
    updatedByMutate sampleDeps sampleWebhook sampleRequestMarked = false ∧
    (pod.handle sampleDeps sampleWebhook sampleRequestMarked).2 = none ∧
    annotationOf (pod.handle sampleDeps sampleWebhook sampleRequestMarked).1
      oneagent.AnnotationInjected = some "true" ∧
    annotationOf (pod.handle sampleDeps sampleWebhook sampleRequestMarked).1
      oneagent.AnnotationReason = some pod.NoMutationNeededReason ∧
    installCount (pod.handle sampleDeps sampleWebhook sampleRequestMarked).1.base.pod = 1 := by
  decide

/-- C10 fails on the code: on the request of the test "no codeModulesImage" (the
empty DynaKube, target secrets present) `handle` returns nil with the agent
injected annotation "true", without a reason annotation and with the install
container appended; `handle` has no check of the code-modules image and never
writes the no-code-modules-image reason. -/
theorem handle_no_code_modules_image_bug :
    sampleRequestNoImage.base.dynaKube.codeModulesImage = "" ∧
    secretsPresent sampleWebhook sampleRequestNoImage = true ∧
    (pod.handle sampleDeps sampleWebhook sampleRequestNoImage).2 = none ∧
    annotationOf (pod.handle sampleDeps sampleWebhook sampleRequestNoImage).1
      oneagent.AnnotationInjected = some "true" ∧
    annotationOf (pod.handle sampleDeps sampleWebhook sampleRequestNoImage).1
      oneagent.AnnotationReason = none ∧
    annotationOf (pod.handle sampleDeps sampleWebhook sampleRequestNoImage).1
      oneagent.AnnotationReason ≠ some pod.NoCodeModulesImageReason ∧
    installCount (pod.handle sampleDeps sampleWebhook sampleRequestNoImage).1.base.pod = 1 := by
  decide

/-- C11, as stated, fails: with CSI reported as not available and the pod override
"csi", `IsCSIVolume` selects the CSI strategy and `mutateInitContainer` adds the
CSI volume. -/
theorem IsCSIVolume_counterexample :
    sampleRequestCsiOverride.base.dynaKube.csiAvailable = false ∧
    oneagent.IsCSIVolume sampleRequestCsiOverride.base = true ∧
    (oneagent.mutateInitContainer sampleDeps sampleRequestCsiOverride
        oneagent.DefaultInstallPath).1.base.pod.volumes =
      sampleRequestCsiOverride.base.pod.volumes ++ [sampleDeps.csiBinVolume "dynakube" ""] := by
  decide

/-- C11 (amended): `IsCSIVolume` selects the CSI strategy exactly when the pod's
volume-type override is "csi", or the pod sets no override and the DynaKube
reports CSI available; `mutateInitContainer` appends the CSI volume to the pod's
volumes when it is selected and the empty-directory volume in every other case. -/
theorem IsCSIVolume_iff (d : Deps) (req : MutationRequest) (installPath : String) :
    (oneagent.IsCSIVolume req.base = true ↔
      (volumeTypeOverride req.base = some "csi" ∨
        (volumeTypeOverride req.base = none ∧ req.base.dynaKube.csiAvailable = true))) ∧
    (oneagent.mutateInitContainer d req installPath).1.base.pod.volumes =
      req.base.pod.volumes ++
        [if oneagent.IsCSIVolume req.base then
           d.csiBinVolume req.base.dynaKube.name req.base.dynaKube.ffCSIMaxRetryTimeout
         else d.emptyDirBinVolume] := by
  constructor
  · unfold oneagent.IsCSIVolume maputils.GetField volumeTypeOverride oneagent.CSIVolumeType
      oneagent.EphemeralVolumeType
    cases maputils.lookup req.base.pod.annotations oneagent.AnnotationVolumeType with
    | none => cases req.base.dynaKube.csiAvailable <;> simp
    | some v =>
      by_cases hv : v = ""
      · cases req.base.dynaKube.csiAvailable <;> simp [hv]
      · simp [hv]
  · exact mutateInitContainer_volumes d req installPath

/-- C12, as stated, fails: with the CSI strategy and without the node-image-pull
flag, self-extracting mode is false and `mutateInitContainer` appends no
download arguments: the arguments are the three of `addInitArgs` only. -/
theorem mutateInitContainer_download_counterexample :
    oneagent.IsSelfExtractingImage sampleRequestCsi.base
      (oneagent.IsCSIVolume sampleRequestCsi.base) = false ∧
    (oneagent.mutateInitContainer sampleDeps sampleRequestCsi
        oneagent.DefaultInstallPath).1.installContainer.args =
      ["--source=/opt/dynatrace/oneagent", "--target=/mnt/bin",
       "--install-path=/opt/dynatrace/oneagent-paas"] := by
  decide

/-- C12 (amended): self-extracting mode is true exactly when the node-image-pull
flag is enabled and the chosen volume strategy is not CSI; when it is true
`mutateInitContainer` sets the Command of the install container to the empty list
and appends no download arguments; when it is false and the strategy is not CSI
it appends the download-args triple before the arguments of `addInitArgs` and
keeps the Command; with the CSI strategy it appends no download arguments and
keeps the Command. -/
theorem mutateInitContainer_download (d : Deps) (req : MutationRequest) (installPath : String) :
    (oneagent.IsSelfExtractingImage req.base (oneagent.IsCSIVolume req.base) = true ↔
      (req.base.dynaKube.ffNodeImagePull = true ∧ oneagent.IsCSIVolume req.base = false)) ∧
    (oneagent.IsSelfExtractingImage req.base (oneagent.IsCSIVolume req.base) = true →
      (oneagent.mutateInitContainer d req installPath).1.installContainer.command = [] ∧
      (oneagent.mutateInitContainer d req installPath).1.installContainer.args =
        req.installContainer.args ++
          initArgsAppended req.base.pod.annotations req.base.dynaKube installPath) ∧
    (oneagent.IsSelfExtractingImage req.base (oneagent.IsCSIVolume req.base) = false →
      oneagent.IsCSIVolume req.base = false →
      (oneagent.mutateInitContainer d req installPath).1.installContainer.command =
        req.installContainer.command ∧
      (oneagent.mutateInitContainer d req installPath).1.installContainer.args =
        req.installContainer.args ++ arg.ConvertArgsToStrings (downloadArgs d req.base) ++
          initArgsAppended req.base.pod.annotations req.base.dynaKube installPath) ∧
    (oneagent.IsCSIVolume req.base = true →
      (oneagent.mutateInitContainer d req installPath).1.installContainer.command =
        req.installContainer.command ∧
      (oneagent.mutateInitContainer d req installPath).1.installContainer.args =
        req.installContainer.args ++
          initArgsAppended req.base.pod.annotations req.base.dynaKube installPath) := by
  have ha := mutateInitContainer_args d req installPath
  have hc := mutateInitContainer_command d req installPath
  refine ⟨?_, ?_, ?_, ?_⟩
  · unfold oneagent.IsSelfExtractingImage
    cases req.base.dynaKube.ffNodeImagePull <;> cases oneagent.IsCSIVolume req.base <;> simp
  · intro hs
    rw [ha, hc, hs]
    simp
  · intro hs hcsi
    rw [ha, hc, hs, hcsi]
    simp
  · intro hcsi
    have hs : oneagent.IsSelfExtractingImage req.base (oneagent.IsCSIVolume req.base) = false := by
      unfold oneagent.IsSelfExtractingImage
      rw [hcsi]; simp
    rw [ha, hc, hs, hcsi]
    simp

/-- On the sample request (no CSI, no node-image-pull flag) the case "not
self-extracting, not CSI" of C12 (amended) applies: the download-args triple is
appended before the arguments of `addInitArgs`. -/
theorem mutateInitContainer_download_witness :
    (oneagent.mutateInitContainer sampleDeps sampleRequest
        oneagent.DefaultInstallPath).1.installContainer.command =
      sampleRequest.installContainer.command ∧
    (oneagent.mutateInitContainer sampleDeps sampleRequest
        oneagent.DefaultInstallPath).1.installContainer.args =
      sampleRequest.installContainer.args ++
        arg.ConvertArgsToStrings (downloadArgs sampleDeps sampleRequest.base) ++
        initArgsAppended sampleRequest.base.pod.annotations sampleRequest.base.dynaKube
          oneagent.DefaultInstallPath :=
  (mutateInitContainer_download sampleDeps sampleRequest oneagent.DefaultInstallPath).2.2.1
    (by decide) (by decide)

/-- C13: when `addInitArgs` returns nil, the arguments of the install container are
its previous arguments followed by the source-folder, target-folder and
install-path arguments, then, exactly in cloud-native full-stack mode, the
fullstack flag and the tenant argument with the resolved tenant identifier,
then, exactly when the technology is not empty, the technology argument; the
technology is the pod's technologies annotation whenever the key is present and
otherwise the node-image-pull technology of the DynaKube; no other field of the
container changes. -/
theorem addInitArgs_appends (p : Pod) (c : Container) (dk : DynaKube) (installPath : String)
    (h : (oneagent.addInitArgs p c dk installPath).2 = none) :
    (dk.cloudNativeFullstack = true → dk.TenantUUID = Except.ok dk.statusTenantUUID) ∧
    (oneagent.addInitArgs p c dk installPath).1 =
      { c with args := c.args ++
          arg.ConvertArgsToStrings (initArgsOf p.annotations dk installPath) } ∧
    (arg.ConvertArgsToStrings (initArgsOf p.annotations dk installPath)).length =
      3 + (if dk.cloudNativeFullstack then 2 else 0) +
        (if technologyOf p.annotations dk ≠ "" then 1 else 0) := by
  have hres : tenantResolved dk = true := (addInitArgs_ok p c dk installPath).1 h
  refine ⟨?_, ?_, ?_⟩
  · intro hf
    unfold tenantResolved at hres
    rw [hf] at hres
    exact TenantUUID_ok dk (by simpa using hres)
  · rw [addInitArgs_eq, hres]
    rfl
  · unfold arg.ConvertArgsToStrings initArgsOf
    cases dk.cloudNativeFullstack <;> by_cases ht : technologyOf p.annotations dk = "" <;>
      simp [ht]

/-- The hypothesis of C13 holds in full-stack mode with a known tenant and a pod
that names its technologies, and the six arguments are appended in order. -/
theorem addInitArgs_appends_witness :
    (oneagent.addInitArgs samplePodTechnologies { name := "dynatrace-operator", image := "" }
        sampleDynaKubeFullstack "/opt/agent").1.args =
      ["--source=/opt/dynatrace/oneagent", "--target=/mnt/bin", "--install-path=/opt/agent",
       "--fullstack", "--tenant=abc12345", "--technology=java"] :=
  (congrArg Container.args (addInitArgs_appends samplePodTechnologies
    { name := "dynatrace-operator", image := "" } sampleDynaKubeFullstack "/opt/agent"
    (by decide)).2.1).trans (by decide)

/-- C14, as stated, fails: in full-stack mode without a tenant identifier
`mutateInitContainer` returns the lookup error and the source-folder, target-folder
and install-path arguments are not in the arguments of the install container. -/
theorem mutateInitContainer_tenant_counterexample :
    sampleRequestFullstack.base.dynaKube.cloudNativeFullstack = true ∧
    sampleRequestFullstack.base.dynaKube.TenantUUID =
      Except.error (Err.other "tenant UUID not available") ∧
    (oneagent.mutateInitContainer sampleDeps sampleRequestFullstack
        oneagent.DefaultInstallPath).2 = some (Err.other "tenant UUID not available") ∧
    (oneagent.mutateInitContainer sampleDeps sampleRequestFullstack
        oneagent.DefaultInstallPath).1.installContainer.args =
      ["--version", "--technologies=all", "--flavor"] :=
  ⟨by decide, rfl, by decide, by decide⟩

/-- C14 (amended): in full-stack mode with a tenant identifier that cannot be
resolved, `addInitArgs` returns the lookup error and leaves the install container
as it was, so `mutateInitContainer` and `Mutator.Mutate` return that error and the
arguments of the install container are the previous ones followed only by the
download-args triple when the strategy is not CSI and the mode is not
self-extracting: no source-folder, target-folder, install-path, fullstack or
tenant argument is appended. -/
theorem mutateInitContainer_tenant_error (d : Deps) (req : MutationRequest)
    (installPath : String) (e : Err)
    (hfull : req.base.dynaKube.cloudNativeFullstack = true)
    (htenant : req.base.dynaKube.TenantUUID = Except.error e) :
    (∀ (p : Pod) (c : Container),
      oneagent.addInitArgs p c req.base.dynaKube installPath = (c, some e)) ∧
    (oneagent.mutateInitContainer d req installPath).2 = some e ∧
    (oneagent.Mutator.Mutate d req).2 = some e ∧
    (oneagent.mutateInitContainer d req installPath).1.installContainer.args =
      req.installContainer.args ++
        (if !oneagent.IsSelfExtractingImage req.base (oneagent.IsCSIVolume req.base)
            && !oneagent.IsCSIVolume req.base
          then arg.ConvertArgsToStrings (downloadArgs d req.base) else []) := by
  obtain ⟨hu, he⟩ := TenantUUID_error_inv _ e htenant
  have hres : tenantResolved req.base.dynaKube = false := by
    unfold tenantResolved
    rw [hfull, hu]; rfl
  have hadd : ∀ (p : Pod) (c : Container) (path : String),
      oneagent.addInitArgs p c req.base.dynaKube path = (c, some e) := by
    intro p c path
    rw [addInitArgs_eq, hres, he]
    rfl
  have hmic : ∀ path, (oneagent.mutateInitContainer d req path).2 = some e := by
    intro path
    unfold oneagent.mutateInitContainer
    dsimp only
    rw [hadd]
  refine ⟨fun p c => hadd p c installPath, hmic installPath, ?_, ?_⟩
  · unfold oneagent.Mutator.Mutate
    dsimp only
    rw [hmic]
  · rw [mutateInitContainer_args]
    unfold initArgsAppended
    rw [hres]
    simp

/-- The hypotheses of C14 (amended) hold on the sample full-stack request, and the
build fails there with the lookup error. -/
theorem mutateInitContainer_tenant_error_witness :
    (oneagent.mutateInitContainer sampleDeps sampleRequestFullstack
      oneagent.DefaultInstallPath).2 = some (Err.other "tenant UUID not available") :=
  (mutateInitContainer_tenant_error sampleDeps sampleRequestFullstack
    oneagent.DefaultInstallPath (Err.other "tenant UUID not available") (by decide)
    rfl).2.1

/-- C15: `oneagent.IsEnabled` returns true exactly when the per-pod opt-in holds (the
inject annotation read as a boolean, the automatic-injection flag when it is not
set), the namespace selector of the DynaKube is not nil, and the selector has no
requirements or matches the labels of the namespace (it is a well-formed label
selector whose match labels and match expressions hold on the labels).  The call
modifies neither the pod, the namespace nor the DynaKube: whenever it returns,
the request it leaves behind is the request it received. -/
theorem oneagent_IsEnabled_iff (request : BaseRequest) :
    (oneagent.IsEnabled request = some true ↔
      (podOptIn request = true ∧
        (∃ ps, request.dynaKube.namespaceSelector = some ps ∧
          (metav1.LabelSelector.Size (some ps) = 0 ∨
            selectorMatches ps request.nspace.labels = true)))) ∧
    oneagent.IsEnabledRun request =
      (oneagent.IsEnabled request).map (fun result => (result, request)) := by
  constructor
  · rw [oneagent_IsEnabled_cases]
    unfold selectorMatches
    cases hsel : request.dynaKube.namespaceSelector with
    | none => simp
    | some ps =>
      by_cases hz : metav1.LabelSelector.Size (some ps) = 0
      · simp [hz]
      · by_cases hv : selectorValid ps = true
        · simp only [hz, hv, if_false, if_true, Option.some.injEq, Bool.and_eq_true]
          constructor
          · rintro ⟨hh, ho⟩
            exact ⟨ho, ps, rfl, Or.inr ⟨hv, hh⟩⟩
          · rintro ⟨ho, ps2, hps, hh⟩
            cases hps
            rcases hh with hh | hh
            · exact absurd hh hz
            · exact ⟨hh.2, ho⟩
        · simp only [hz, hv, if_false, Bool.and_eq_true]
          constructor
          · intro h
            cases h
          · rintro ⟨_, ps2, hps, hh⟩
            cases hps
            rcases hh with hh | hh
            · exact absurd hh hz
            · exact absurd hh.1 hv
  · unfold oneagent.IsEnabledRun oneagent.IsEnabled
    cases oneagent.matchesNamespaceSelector request <;> rfl

/-- C16: when the owning-workload lookup fails, `metadata.Mutate` returns that error
and leaves the request as it was (annotations and arguments of the install
container included); when the lookup and the serialization succeed it returns
nil, the metadata injected annotation is "true", the workload-kind and
workload-name annotations are the looked-up kind and name, the arguments of the
install container are the previous ones followed by the serialized attributes,
and the agent injected and agent reason annotations are as before. -/
theorem metadata_Mutate_contract (d : Deps) (wh : webhook) (request : MutationRequest) :
    (∀ e, wh.retrieveWorkload request = Except.error e →
      metadata.Mutate d wh request = (request, some e)) ∧
    (∀ workload args, wh.retrieveWorkload request = Except.ok workload →
      d.attributesToArgs (attributesOf d request workload) = Except.ok args →
      (metadata.Mutate d wh request).2 = none ∧
      annotationOf (metadata.Mutate d wh request).1 metadata.AnnotationInjected = some "true" ∧
      annotationOf (metadata.Mutate d wh request).1 metadata.AnnotationWorkloadKind =
        some workload.kind ∧
      annotationOf (metadata.Mutate d wh request).1 metadata.AnnotationWorkloadName =
        some workload.name ∧
      (metadata.Mutate d wh request).1.installContainer.args =
        request.installContainer.args ++ args ∧
      annotationOf (metadata.Mutate d wh request).1 oneagent.AnnotationInjected =
        annotationOf request oneagent.AnnotationInjected ∧
      annotationOf (metadata.Mutate d wh request).1 oneagent.AnnotationReason =
        annotationOf request oneagent.AnnotationReason) := by
  constructor
  · intro e he
    unfold metadata.Mutate
    rw [he]
  · intro workload args hw ha
    have hl := metadata_Mutate_lookup d wh request
    unfold attributesOf at ha
    have hm2 : (metadata.Mutate d wh request).2 = none := by
      unfold metadata.Mutate
      rw [hw]
      simp only [ha]
    have hpod : (metadata.Mutate d wh request).1.base.pod =
        metadata.SetWorkloadAnnotations ( metadata.SetInjectedAnnotation request.base.pod)
          workload := by
      unfold metadata.Mutate
      rw [hw]
      simp only [ha]
    have hargs : (metadata.Mutate d wh request).1.installContainer.args =
        request.installContainer.args ++ args := by
      unfold metadata.Mutate
      rw [hw]
      simp only [ha]
    unfold annotationOf
    refine ⟨hm2, ?_, ?_, ?_, hargs, hl _ (by decide) (by decide) (by decide),
      hl _ (by decide) (by decide) (by decide)⟩
    · rw [hpod]
      unfold metadata.SetWorkloadAnnotations metadata.SetInjectedAnnotation
      simp only
      rw [lookup_insert_ne _ _ _ _ (by decide), lookup_insert_ne _ _ _ _ (by decide)]
      exact lookup_insert_self _ _ _
    · rw [hpod]
      unfold metadata.SetWorkloadAnnotations metadata.SetInjectedAnnotation
      simp only
      rw [lookup_insert_ne _ _ _ _ (by decide)]
      exact lookup_insert_self _ _ _
    · rw [hpod]
      unfold metadata.SetWorkloadAnnotations metadata.SetInjectedAnnotation
      simp only
      exact lookup_insert_self _ _ _

/-- On the sample request the success case of C16 applies: the lookup finds the
deployment "web" and the serialization succeeds. -/
theorem metadata_Mutate_contract_witness :
    (metadata.Mutate sampleDeps sampleWebhook sampleRequest).2 = none ∧
    annotationOf (metadata.Mutate sampleDeps sampleWebhook sampleRequest).1
      metadata.AnnotationInjected = some "true" ∧
    annotationOf (metadata.Mutate sampleDeps sampleWebhook sampleRequest).1
      metadata.AnnotationWorkloadKind = some "deployment" ∧
    annotationOf (metadata.Mutate sampleDeps sampleWebhook sampleRequest).1
      metadata.AnnotationWorkloadName = some "web" ∧
    (metadata.Mutate sampleDeps sampleWebhook sampleRequest).1.installContainer.args =
      sampleRequest.installContainer.args ++
        ["--attribute=k8s.workload.kind=deployment", "--attribute=k8s.workload.name=web"] :=
  have h := (metadata_Mutate_contract sampleDeps sampleWebhook sampleRequest).2
    { kind := "deployment", name := "web" }
    ["--attribute=k8s.workload.kind=deployment", "--attribute=k8s.workload.name=web"] rfl rfl
  ⟨h.1, h.2.1, h.2.2.1, h.2.2.2.1, h.2.2.2.2.1⟩

/-- C17: after `setDynatraceInjectedAnnotation`, on every annotation map, the nil map
included, the dynatrace-injected key is "true", the dynatrace-reason key is
absent, every other key reads as before (none is added, none is lost), the map
has one entry more than the entries it kept, so the nil map and a map that held
only the reason key end with exactly one entry; a second application changes
nothing. -/
theorem setDynatraceInjected_contract (r : MutationRequest) :
    annotationOf ( pod.setDynatraceInjectedAnnotation r) AnnotationDynatraceInjected =
      some "true" ∧
    annotationOf ( pod.setDynatraceInjectedAnnotation r) AnnotationDynatraceReason = none ∧
    (∀ k, k ≠ AnnotationDynatraceInjected → k ≠ AnnotationDynatraceReason →
      annotationOf ( pod.setDynatraceInjectedAnnotation r) k = annotationOf r k) ∧
    entryCount ( pod.setDynatraceInjectedAnnotation r).base.pod.annotations =
      1 + ((r.base.pod.annotations.getD []).filter (fun kv =>
        !(kv.1 == AnnotationDynatraceInjected) && !(kv.1 == AnnotationDynatraceReason))).length ∧
    (r.base.pod.annotations = none →
      ( pod.setDynatraceInjectedAnnotation r).base.pod.annotations =
        some [(AnnotationDynatraceInjected, "true")]) ∧
    (∀ v, r.base.pod.annotations = some [(AnnotationDynatraceReason, v)] →
      ( pod.setDynatraceInjectedAnnotation r).base.pod.annotations =
        some [(AnnotationDynatraceInjected, "true")]) ∧
    pod.setDynatraceInjectedAnnotation ( pod.setDynatraceInjectedAnnotation r) =
      pod.setDynatraceInjectedAnnotation r := by
  have hann := setDynatraceInjected_annotations r
  refine ⟨(setDynatraceInjected_marks r).1, (setDynatraceInjected_marks r).2,
    fun k k1 k2 => setDynatraceInjected_lookup r k k1 k2, ?_, ?_, ?_, ?_⟩
  · rw [hann]
    unfold entryCount
    simp only [Option.getD_some, List.length_cons, List.filter_filter]
    rw [Nat.add_comm]
    congr 2
    exact List.filter_congr (fun x _ => Bool.and_comm _ _)
  · intro hnil
    rw [hann, hnil]
    rfl
  · intro v hv
    rw [hann, hv]
    rfl
  · have h2 := setDynatraceInjected_annotations ( pod.setDynatraceInjectedAnnotation r)
    rw [hann] at h2
    simp only [Option.getD_some] at h2
    rw [List.filter_cons_of_neg (by decide), filter_keys_settled, ← hann] at h2
    have hp : ( pod.setDynatraceInjectedAnnotation ( pod.setDynatraceInjectedAnnotation r)).base.pod
        = ( pod.setDynatraceInjectedAnnotation r).base.pod := by
      show { ( pod.setDynatraceInjectedAnnotation r).base.pod with
        annotations := ( pod.setDynatraceInjectedAnnotation
          ( pod.setDynatraceInjectedAnnotation r)).base.pod.annotations } = _
      rw [h2]
    show pod.withPod ( pod.setDynatraceInjectedAnnotation r)
      ( pod.setDynatraceInjectedAnnotation ( pod.setDynatraceInjectedAnnotation r)).base.pod = _
    rw [hp]
    rfl

/-- On the nil map the case "nil" of C17 applies: one entry afterwards. -/
theorem setDynatraceInjected_contract_witness :
    ( pod.setDynatraceInjectedAnnotation (requestWithAnnotations none)).base.pod.annotations =
      some [(AnnotationDynatraceInjected, "true")] :=
  (setDynatraceInjected_contract (requestWithAnnotations none)).2.2.2.2.1 rfl
